import Mathlib

/-!
Verification of the MPC two-party signing enclave service: a shallow
embedding of the session engine (`mpc-protocol`), the request dispatcher
(`enclave/index.ts`), the vsock transport framing, and the sealed keystore
backends (`keystore`), together with theorems about the specified
behaviour.

Conventions of the embedding:
* Machine time (`Date.now()`) is a `Nat` passed explicitly.
* Random draws (`crypto.randomBytes`) are explicit arguments, collected in
  a `Fresh` record; theorems quantify over all draws.
* Byte strings are `List Nat`.
* A protocol message travels as JSON over base64; the engine either
  decodes such bytes to a structured message or fails.  We embed the wire
  payload as `Option ProtoMsg`: `some m` for bytes that decode to `m`,
  `none` for undecodable bytes.
* Thrown `Error` values are `Except.error` carrying the message string;
  the dispatcher classifies messages to error codes by substring search,
  exactly as `processRequest` does.
* The JS `Map` objects (session map, in-memory keystore) are association
  lists with single-binding semantics; entry order is not relied upon.
-/

namespace MPCEnclave

/-- Byte strings (`Buffer` / `Uint8Array` contents). -/
abbrev Bytes := List Nat

/-- Association-list lookup, first binding wins (JS `Map.get`). -/
def alookup {α : Type} : List (String × α) → String → Option α
  | [], _ => none
  | (k, v) :: rest, key => if k = key then some v else alookup rest key

/-- Association-list update (JS `Map.set`): at most one binding per key. -/
def aset {α : Type} (l : List (String × α)) (key : String) (v : α) :
    List (String × α) :=
  (key, v) :: l.filter (fun p => p.1 ≠ key)

/-- Association-list removal (JS `Map.delete`). -/
def aerase {α : Type} (l : List (String × α)) (key : String) :
    List (String × α) :=
  l.filter (fun p => p.1 ≠ key)

theorem alookup_aset_self {α : Type} (l : List (String × α)) (k : String) (v : α) :
    alookup (aset l k v) k = some v := by
  simp [aset, alookup]

theorem aerase_cons {α : Type} (hd : String × α) (tl : List (String × α))
    (k : String) :
    aerase (hd :: tl) k = if hd.1 = k then aerase tl k else hd :: aerase tl k := by
  by_cases h : hd.1 = k <;> simp [aerase, List.filter_cons, h]

theorem alookup_aerase_self {α : Type} (l : List (String × α)) (k : String) :
    alookup (aerase l k) k = none := by
  induction l with
  | nil => simp [aerase, alookup]
  | cons hd tl ih =>
    rcases hd with ⟨hk, hv⟩
    by_cases h : hk = k <;> simp [aerase_cons, h, alookup, ih]

theorem alookup_aerase_ne {α : Type} (l : List (String × α)) (k k₂ : String)
    (h : k ≠ k₂) : alookup (aerase l k) k₂ = alookup l k₂ := by
  induction l with
  | nil => simp [aerase, alookup]
  | cons hd tl ih =>
    rcases hd with ⟨hk, hv⟩
    by_cases h₂ : hk = k
    · subst h₂
      simp [aerase_cons, alookup, h, ih]
    · by_cases h₃ : hk = k₂ <;>
        simp [aerase_cons, alookup, h₂, h₃, Ne.symm h, ih]

theorem aset_eq_cons_aerase {α : Type} (l : List (String × α)) (k : String)
    (v : α) : aset l k v = (k, v) :: aerase l k := rfl

theorem alookup_aset_ne {α : Type} (l : List (String × α)) (k k₂ : String) (v : α)
    (h : k ≠ k₂) : alookup (aset l k v) k₂ = alookup l k₂ := by
  rw [aset_eq_cons_aerase]
  simp only [alookup, if_neg h]
  exact alookup_aerase_ne l k k₂ h

/-- Membership of a key in an association list, as the entry it maps to. -/
theorem alookup_mem {α : Type} (l : List (String × α)) (k : String) (v : α)
    (h : alookup l k = some v) : (k, v) ∈ l := by
  induction l with
  | nil => simp [alookup] at h
  | cons hd tl ih =>
    rcases hd with ⟨hk, hv⟩
    by_cases h₂ : hk = k
    · subst h₂
      simp [alookup] at h
      subst h
      exact List.mem_cons_self _ _
    · simp [alookup, h₂] at h
      exact List.mem_cons_of_mem _ (ih h)

theorem mem_aset {α : Type} (l : List (String × α)) (k : String) (v : α)
    (p : String × α) (h : p ∈ aset l k v) : p = (k, v) ∨ p ∈ l := by
  simp only [aset, List.mem_cons] at h
  rcases h with h | h
  · exact Or.inl h
  · exact Or.inr (List.mem_of_mem_filter h)

theorem mem_aerase {α : Type} (l : List (String × α)) (k : String)
    (p : String × α) (h : p ∈ aerase l k) : p ∈ l :=
  List.mem_of_mem_filter h

/-! ## Data model (`types.ts`, `mpc-protocol.ts`) -/

/-- The `protocol` discriminator of a session (`'DKG' | 'SIGN' | 'RECOVER'`). -/
inductive Protocol where
  | DKG
  | SIGN
  | RECOVER
deriving DecidableEq, Repr

/-- A decoded protocol message (`encodeMessage`/`decodeMessage` payloads:
`{ round, type, data }`). -/
structure ProtoMsg where
  round : Nat
  mtype : String
  data : Bytes
deriving DecidableEq, Repr

/-- Wire bytes carrying a protocol message: `some m` if the bytes decode to
`m` under `decodeMessage` (JSON over UTF-8), `none` if decoding fails. -/
abbrev ClientMsg := Option ProtoMsg

/-- The protocol-specific `internalState` payload.  The source stores a
plain object; the mock engine only ever creates the three shapes below
(plus the empty object from `SessionManager.create`).  Reading
`currentRound` off a non-matching shape gives `undefined` in JS, which
matches none of the round branches; the embedding reflects that via the
catch-all cases of the step functions. -/
inductive InternalState where
  | empty
  | dkg (fullPrivateKey : Bytes) (currentRound : Nat) (maxRounds : Nat)
      (clientCommitment : Option Bytes) (clientShare : Option Bytes)
  | signing (serverShard : Bytes) (messageHash : Bytes)
      (currentRound : Nat) (maxRounds : Nat)
  | recovery (serverShard : Bytes) (clientChallenge : Bytes) (verified : Bool)
deriving DecidableEq, Repr

/-- `MPCSessionState` from `types.ts`. -/
structure MPCSessionState where
  sessionId : String
  protocol : Protocol
  round : Nat
  accountId : Option String
  internalState : InternalState
  createdAt : Nat
  expiresAt : Nat
deriving DecidableEq, Repr

/-- `AccountMetadata` from `types.ts` (timestamps as `Nat`). -/
structure AccountMetadata where
  accountId : String
  address : Bytes
  publicKey : String
  label : Option String
  createdAt : Nat
  lastUsedAt : Option Nat
deriving DecidableEq, Repr

/-- `DKGResult` from `types.ts`. -/
structure DKGResult where
  serverShard : Bytes
  publicKey : Bytes
  address : Bytes
deriving DecidableEq, Repr

/-- `SigningResult` from `types.ts`. -/
structure SigningResult where
  serverPartial : Bytes
deriving DecidableEq, Repr

/-- `RecoveryResult` from `types.ts`. -/
structure RecoveryResult where
  verified : Bool
  address : Bytes
deriving DecidableEq, Repr

/-! ## Modelled library crypto

`ethers.Wallet` (secp256k1 public-key derivation, keccak-based address)
and ECDSA signing are library code absent from the repository source; the
spec pins down only their shape. -/

/-- Modelled from the spec: "publicKey: uncompressed public key bytes" —
the combined public key that the underlying key material determines
(`ethers` `wallet.publicKey`, 65 bytes `04 ‖ x ‖ y`; library code not in
src).  Modelled as an injective deterministic function of the private
key. -/
def pubKeyOfPriv (privateKey : Bytes) : Bytes :=
  4 :: privateKey

/-- Modelled from the spec: "address: a deterministic public identifier
derived from the combined public key" (`ethers` derives the address as a
keccak digest of the public key; library code not in src).  Modelled as a
deterministic function of the public key bytes. -/
def addressOfPub (publicKey : Bytes) : Bytes :=
  publicKey.map (fun b => (b + 1) % 256)

/-- `ethers.Wallet(privateKey).address`: the address an `ethers` wallet
reports, which is `addressOfPub` of the wallet's public key. -/
def walletAddress (privateKey : Bytes) : Bytes :=
  addressOfPub (pubKeyOfPriv privateKey)

/-- Modelled from the spec: the server's signature contribution `r ‖ s ‖ v`
computed from the shard and the 32-byte digest (`ethers`
`signingKey.sign`; library code not in src).  Modelled as a deterministic
function of shard and digest. -/
def signPartial (serverShard messageHash : Bytes) : Bytes :=
  serverShard ++ messageHash ++ [27]

/-- Hex digit for a value below 16. -/
def hexDigit (n : Nat) : Char :=
  if n < 10 then Char.ofNat (48 + n) else Char.ofNat (87 + n)

/-- `Buffer.prototype.toString('hex')`: two lowercase hex digits per byte. -/
def bytesToHex (b : Bytes) : String :=
  String.mk (b.foldr (fun byte acc => hexDigit (byte / 16 % 16) :: hexDigit (byte % 16) :: acc) [])

/-! ## Mock MPC protocol engine (`MockMPCProtocol`) -/

/-- The common shape of the engine's step outcomes:
`{ sessionState, done, serverMessage?, result? }`. -/
structure EngineStep (R : Type) where
  sessionState : MPCSessionState
  done : Bool
  serverMessage : Option ProtoMsg
  result : Option R
deriving DecidableEq, Repr

/-- `MockMPCProtocol.startDKG`.  The fresh session id, the random 32-byte
`fullPrivateKey`, the random commitment bytes, and `Date.now()` are
explicit arguments. -/
def startDKG (sessionId : String) (fullPrivateKey : Bytes) (commitRand : Bytes)
    (now : Nat) : MPCSessionState × ProtoMsg :=
  ({ sessionId := sessionId,
     protocol := .DKG,
     round := 1,
     accountId := none,
     internalState := .dkg fullPrivateKey 1 3 none none,
     createdAt := now,
     expiresAt := now + 300000 },
   { round := 1, mtype := "dkg_commitment", data := commitRand })

/-- `MockMPCProtocol.stepDKG`.  `rand` stands for the `crypto.randomBytes`
draw used for the reply message of the non-terminal rounds. -/
def stepDKG (sessionState : MPCSessionState) (clientMessage : ClientMsg)
    (rand : Bytes) : Except String (EngineStep DKGResult) :=
  if sessionState.protocol ≠ .DKG then
    .error "MPC_ERROR: Invalid protocol for DKG step"
  else
    match clientMessage with
    | none => .error "MPC_ERROR: Failed to decode message"
    | some clientMsg =>
      match sessionState.internalState with
      | .dkg fullPrivateKey currentRound maxRounds clientCommitment clientShare =>
        if currentRound = 1 then
          .ok { sessionState :=
                  { sessionState with internalState :=
                      InternalState.dkg fullPrivateKey 2 maxRounds (some clientMsg.data) clientShare },
                done := false,
                serverMessage := some { round := 2, mtype := "dkg_share_commitment", data := rand },
                result := none }
        else if currentRound = 2 then
          .ok { sessionState :=
                  { sessionState with internalState :=
                      InternalState.dkg fullPrivateKey 3 maxRounds clientCommitment (some clientMsg.data) },
                done := false,
                serverMessage := some { round := 3, mtype := "dkg_verification", data := rand },
                result := none }
        else if currentRound = 3 then
          .ok { sessionState := sessionState,
                done := true,
                serverMessage := none,
                result := some
                  { serverShard := fullPrivateKey,
                    publicKey := pubKeyOfPriv fullPrivateKey,
                    address := walletAddress fullPrivateKey } }
        else .error "MPC_ERROR: Invalid DKG round"
      | _ => .error "MPC_ERROR: Invalid DKG round"

/-- `MockMPCProtocol.startSign`. -/
def startSign (sessionId : String) (serverShard : Bytes) (messageHash : Bytes)
    (nonceRand : Bytes) (now : Nat) : MPCSessionState × ProtoMsg :=
  ({ sessionId := sessionId,
     protocol := .SIGN,
     round := 1,
     accountId := none,
     internalState := .signing serverShard messageHash 1 2,
     createdAt := now,
     expiresAt := now + 300000 },
   { round := 1, mtype := "sign_nonce_commitment", data := nonceRand })

/-- `MockMPCProtocol.stepSign`. -/
def stepSign (sessionState : MPCSessionState) (clientMessage : ClientMsg) :
    Except String (EngineStep SigningResult) :=
  if sessionState.protocol ≠ .SIGN then
    .error "MPC_ERROR: Invalid protocol for signing step"
  else
    match clientMessage with
    | none => .error "MPC_ERROR: Failed to decode message"
    | some _ =>
      match sessionState.internalState with
      | .signing serverShard messageHash currentRound _maxRounds =>
        if currentRound = 1 then
          .ok { sessionState := sessionState,
                done := true,
                serverMessage := none,
                result := some { serverPartial := signPartial serverShard messageHash } }
        else .error "MPC_ERROR: Invalid signing round"
      | _ => .error "MPC_ERROR: Invalid signing round"

/-- `MockMPCProtocol.startRecover`: decodes the challenge, derives the
address from the server shard, marks `verified := true` unconditionally
("Mock: auto-verify"), and returns `done := true` with the result. -/
def startRecover (sessionId : String) (accountId : String) (serverShard : Bytes)
    (clientMessage : ClientMsg) (now : Nat) :
    Except String (EngineStep RecoveryResult) :=
  match clientMessage with
  | none => .error "MPC_ERROR: Failed to decode message"
  | some clientMsg =>
    .ok { sessionState :=
            { sessionId := sessionId,
              protocol := .RECOVER,
              round := 1,
              accountId := some accountId,
              internalState := .recovery serverShard clientMsg.data true,
              createdAt := now,
              expiresAt := now + 300000 },
          done := true,
          serverMessage := none,
          result := some { verified := true, address := walletAddress serverShard } }

/-- `MockMPCProtocol.stepRecover`: always throws. -/
def stepRecover (_sessionState : MPCSessionState) (_clientMessage : ClientMsg) :
    Except String (EngineStep RecoveryResult) :=
  .error "MPC_ERROR: Recovery should complete in startRecover"

/-! ## Session manager (`SessionManager`) -/

/-- The session map (`private sessions: Map<string, MPCSessionState>`). -/
abbrev Sessions := List (String × MPCSessionState)

/-- `SessionManager.get`: lazy expiry — an entry strictly past its
`expiresAt` is deleted on read and reported absent.  Returns the looked-up
session together with the (possibly shrunk) map. -/
def smGet (sessions : Sessions) (sessionId : String) (now : Nat) :
    Option MPCSessionState × Sessions :=
  match alookup sessions sessionId with
  | none => (none, sessions)
  | some s =>
    if now > s.expiresAt then (none, aerase sessions sessionId)
    else (some s, sessions)

/-- `SessionManager.update`. -/
def smUpdate (sessions : Sessions) (s : MPCSessionState) : Sessions :=
  aset sessions s.sessionId s

/-- `SessionManager.delete`. -/
def smDelete (sessions : Sessions) (sessionId : String) : Sessions :=
  aerase sessions sessionId

/-- `SessionManager.cleanup`: drop every session with `now > expiresAt`. -/
def smCleanup (sessions : Sessions) (now : Nat) : Sessions :=
  sessions.filter (fun p => ¬ now > p.2.expiresAt)

/-- `SessionManager.create` (present in the source; the dispatcher never
calls it — sessions enter the map through `update`). -/
def smCreate (sessions : Sessions) (sessionId : String) (protocol : Protocol)
    (accountId : Option String) (now : Nat) : MPCSessionState × Sessions :=
  let s : MPCSessionState :=
    { sessionId := sessionId,
      protocol := protocol,
      round := 0,
      accountId := accountId,
      internalState := .empty,
      createdAt := now,
      expiresAt := now + 300000 }
  (s, aset sessions sessionId s)

/-! ## Keystore backends (`keystore.ts`) -/

/-- Does `pat` occur at the head of `s`? -/
def charsStart (pat s : List Char) : Bool :=
  match pat, s with
  | [], _ => true
  | _ :: _, [] => false
  | c :: pc, d :: dc => c = d && charsStart pc dc

/-- Does `pat` occur contiguously anywhere inside `s`
(`String.prototype.includes`)? -/
def charsContain (pat : List Char) : List Char → Bool
  | [] => charsStart pat []
  | c :: rest => charsStart pat (c :: rest) || charsContain pat rest

/-- The malformed-accountId test of `FileSealedKeyStore.validateAccountId`:
`!accountId || accountId.includes('/') || accountId.includes('\\') ||
accountId.includes('..')`. -/
def badAccountId (accountId : String) : Bool :=
  accountId = "" || charsContain "/".toList accountId.toList
    || charsContain "\\".toList accountId.toList
    || charsContain "..".toList accountId.toList

/-- `FileSealedKeyStore`: file-backed storage.  The filesystem is a map
from paths to contents; shard files hold bytes, metadata files hold the
(JSON of the) metadata record. -/
structure FileKS where
  basePath : String
  shardFiles : List (String × Bytes)
  metaFiles : List (String × AccountMetadata)
deriving DecidableEq, Repr

/-- `FileSealedKeyStore.getShardPath`. -/
def FileKS.getShardPath (ks : FileKS) (accountId : String) : String :=
  ks.basePath ++ "/" ++ accountId ++ ".shard"

/-- `FileSealedKeyStore.getMetadataPath`. -/
def FileKS.getMetadataPath (ks : FileKS) (accountId : String) : String :=
  ks.basePath ++ "/" ++ accountId ++ ".meta.json"

/-- `FileSealedKeyStore.persistServerShard` (I/O failures, mapped to
`KEYSTORE_ERROR` in the source, are not modelled: writes succeed). -/
def FileKS.persistServerShard (ks : FileKS) (accountId : String)
    (serverShard : Bytes) : Except String FileKS :=
  if badAccountId accountId then .error "INVALID_REQUEST: Invalid accountId format"
  else .ok { ks with shardFiles := aset ks.shardFiles (ks.getShardPath accountId) serverShard }

/-- `FileSealedKeyStore.loadServerShard`. -/
def FileKS.loadServerShard (ks : FileKS) (accountId : String) :
    Except String Bytes :=
  if badAccountId accountId then .error "INVALID_REQUEST: Invalid accountId format"
  else
    match alookup ks.shardFiles (ks.getShardPath accountId) with
    | none => .error ("ACCOUNT_NOT_FOUND: No shard found for " ++ accountId)
    | some data => .ok data

/-- `FileSealedKeyStore.has`: `validateAccountId` runs outside the
`try`, so a malformed id throws rather than returning `false`. -/
def FileKS.hasAccount (ks : FileKS) (accountId : String) : Except String Bool :=
  if badAccountId accountId then .error "INVALID_REQUEST: Invalid accountId format"
  else .ok (alookup ks.shardFiles (ks.getShardPath accountId)).isSome

/-- `FileSealedKeyStore.persistAccountMetadata`. -/
def FileKS.persistAccountMetadata (ks : FileKS) (accountId : String)
    (metadata : AccountMetadata) : Except String FileKS :=
  if badAccountId accountId then .error "INVALID_REQUEST: Invalid accountId format"
  else .ok { ks with metaFiles := aset ks.metaFiles (ks.getMetadataPath accountId) metadata }

/-- `FileSealedKeyStore.loadAccountMetadata`. -/
def FileKS.loadAccountMetadata (ks : FileKS) (accountId : String) :
    Except String AccountMetadata :=
  if badAccountId accountId then .error "INVALID_REQUEST: Invalid accountId format"
  else
    match alookup ks.metaFiles (ks.getMetadataPath accountId) with
    | none => .error ("ACCOUNT_NOT_FOUND: No metadata found for " ++ accountId)
    | some metadata => .ok metadata

/-- `InMemoryKeyStore`: two maps, no accountId validation anywhere. -/
structure MemKS where
  shards : List (String × Bytes)
  metadata : List (String × AccountMetadata)
deriving DecidableEq, Repr

/-- `InMemoryKeyStore.persistServerShard`. -/
def MemKS.persistServerShard (ks : MemKS) (accountId : String)
    (serverShard : Bytes) : Except String MemKS :=
  .ok { ks with shards := aset ks.shards accountId serverShard }

/-- `InMemoryKeyStore.loadServerShard`. -/
def MemKS.loadServerShard (ks : MemKS) (accountId : String) :
    Except String Bytes :=
  match alookup ks.shards accountId with
  | none => .error ("ACCOUNT_NOT_FOUND: No shard found for " ++ accountId)
  | some shard => .ok shard

/-- `InMemoryKeyStore.has`. -/
def MemKS.hasAccount (ks : MemKS) (accountId : String) : Except String Bool :=
  .ok (alookup ks.shards accountId).isSome

/-- `InMemoryKeyStore.persistAccountMetadata`. -/
def MemKS.persistAccountMetadata (ks : MemKS) (accountId : String)
    (metadata : AccountMetadata) : Except String MemKS :=
  .ok { ks with metadata := aset ks.metadata accountId metadata }

/-- `InMemoryKeyStore.loadAccountMetadata`. -/
def MemKS.loadAccountMetadata (ks : MemKS) (accountId : String) :
    Except String AccountMetadata :=
  match alookup ks.metadata accountId with
  | none => .error ("ACCOUNT_NOT_FOUND: No metadata found for " ++ accountId)
  | some metadata => .ok metadata

/-! ## Error taxonomy and classification (`enclave/index.ts`,
`processRequest` catch clause) -/

/-- `ErrorCode` from `types.ts` (the codes the dispatcher can emit). -/
inductive ErrorCode where
  | INVALID_REQUEST
  | INVALID_SESSION
  | ACCOUNT_NOT_FOUND
  | KEYSTORE_ERROR
  | MPC_ERROR
  | SIGNING_ERROR
  | RECOVERY_FAILED
  | INTERNAL_ERROR
deriving DecidableEq, Repr

/-- `err.message.includes(pat)`. -/
def msgIncludes (msg pat : String) : Bool :=
  charsContain pat.toList msg.toList

/-- The catch clause of `processRequest`: map a thrown error message to an
`ErrorCode` by substring search, in the source's order. -/
def classifyError (msg : String) : ErrorCode :=
  if msgIncludes msg "INVALID_REQUEST" then .INVALID_REQUEST
  else if msgIncludes msg "INVALID_SESSION" then .INVALID_SESSION
  else if msgIncludes msg "ACCOUNT_NOT_FOUND" then .ACCOUNT_NOT_FOUND
  else if msgIncludes msg "KEYSTORE_ERROR" then .KEYSTORE_ERROR
  else if msgIncludes msg "MPC_ERROR" then .MPC_ERROR
  else if msgIncludes msg "SIGNING_ERROR" then .SIGNING_ERROR
  else if msgIncludes msg "RECOVERY_FAILED" then .RECOVERY_FAILED
  else .INTERNAL_ERROR

/-! ## Request dispatcher (`MPCEnclaveVsockServer` endpoint handlers)

The enclave state bundles the session manager's map with the keystore
(the dispatcher is embedded against the in-memory keystore semantics;
the backend is configuration-selected in the source and the dispatcher
code is backend-agnostic).  Each handler returns the thrown-or-returned
outcome, the successor state, and the ordered trace of its session and
persistence operations. -/

/-- The enclave's mutable state: `sessionManager` plus the keystore. -/
structure EnclaveState where
  sessions : Sessions
  shards : List (String × Bytes)
  metadata : List (String × AccountMetadata)
deriving DecidableEq, Repr

/-- The values the source draws from the environment during one request:
`Date.now()`, fresh `sess-…`/`acct-…` identifiers, and the random bytes
used by the engine. -/
structure Fresh where
  now : Nat
  sessionId : String
  accountId : String
  privKey : Bytes
  rand : Bytes
deriving DecidableEq, Repr

/-- One session-manager or keystore operation performed by a handler, in
program order. -/
inductive Effect where
  | sessionUpdate (s : MPCSessionState)
  | sessionDelete (sessionId : String)
  | genAccountId (accountId : String)
  | persistShard (accountId : String) (serverShard : Bytes)
  | persistMetadata (accountId : String) (metadata : AccountMetadata)
deriving DecidableEq, Repr

/-- `createAccount/start` body. -/
structure StartBody where
  requestId : Option String
  label : Option String
  clientNodeId : Option String
deriving DecidableEq, Repr

/-- `createAccount/step` body (`label` is read off the body again when the
terminal metadata record is built). -/
structure CreateStepBody where
  requestId : Option String
  sessionId : String
  clientMessage : ClientMsg
  label : Option String
deriving DecidableEq, Repr

/-- `getPublicKey` body (`none` models an absent or empty accountId,
which is falsy in the source's `!accountId` check). -/
structure PKBody where
  requestId : Option String
  accountId : Option String
deriving DecidableEq, Repr

/-- The decoded `sign/start` client message `{ messageHash }`. -/
structure SignInit where
  messageHash : Bytes
deriving DecidableEq, Repr

/-- `sign/start` body.  `clientMessage = none` models an absent/falsy
field; `some none` models present bytes whose JSON does not parse;
`some (some i)` models a parsed `{ messageHash }`. -/
structure SignStartBody where
  requestId : Option String
  accountId : Option String
  clientMessage : Option (Option SignInit)
deriving DecidableEq, Repr

/-- `sign/step` body. -/
structure SignStepBody where
  requestId : Option String
  sessionId : String
  clientMessage : ClientMsg
deriving DecidableEq, Repr

/-- `recover/start` body (`clientMessage = none` models an absent/falsy
field, `some m` present bytes with decode outcome `m`). -/
structure RecoverStartBody where
  requestId : Option String
  accountId : Option String
  clientMessage : Option ClientMsg
deriving DecidableEq, Repr

/-- `recover/step` body. -/
structure RecoverStepBody where
  requestId : Option String
  sessionId : String
  clientMessage : ClientMsg
deriving DecidableEq, Repr

/-- The `data` payload of a successful `VsockResponse`, one constructor
per handler return shape (the source types these as per-endpoint response
interfaces). -/
inductive HandlerData where
  | health
  | accountStart (requestId : Option String) (sessionId : String)
      (serverMessage : ProtoMsg)
  | accountStepDone (requestId : Option String) (sessionId : String)
      (accountId : String) (address : Bytes)
  | accountStepContinue (requestId : Option String) (sessionId : String)
      (serverMessage : Option ProtoMsg)
  | publicKey (requestId : Option String) (accountId : String)
      (address : Bytes) (publicKey : String)
  | signStart (requestId : Option String) (sessionId : String)
      (serverMessage : ProtoMsg)
  | signStepDone (requestId : Option String) (sessionId : String)
      (serverPartial : Bytes)
  | signStepContinue (requestId : Option String) (sessionId : String)
      (serverMessage : Option ProtoMsg)
  | recoverDone (requestId : Option String) (sessionId : String)
      (address : Bytes)
  | recoverContinue (requestId : Option String) (sessionId : String)
      (serverMessage : Option ProtoMsg)
deriving DecidableEq, Repr

/-- What one handler call produces: the thrown-or-returned outcome, the
state afterwards, and the trace of operations. -/
abbrev HandlerOut := Except String HandlerData × EnclaveState × List Effect

/-- `handleCreateAccountStart`. -/
def handleCreateAccountStart (st : EnclaveState) (f : Fresh)
    (body : StartBody) : HandlerOut :=
  let p := startDKG f.sessionId f.privKey f.rand f.now
  (.ok (.accountStart body.requestId p.1.sessionId p.2),
   { st with sessions := smUpdate st.sessions p.1 },
   [.sessionUpdate p.1])

/-- `handleCreateAccountStep`. -/
def handleCreateAccountStep (st : EnclaveState) (f : Fresh)
    (body : CreateStepBody) : HandlerOut :=
  match smGet st.sessions body.sessionId f.now with
  | (none, sessions₁) =>
    (.error "INVALID_SESSION: Session not found or expired",
     { st with sessions := sessions₁ }, [])
  | (some s, sessions₁) =>
    let st₁ : EnclaveState := { st with sessions := sessions₁ }
    if s.protocol ≠ .DKG then
      (.error "INVALID_SESSION: Session is not a DKG session", st₁, [])
    else
      match stepDKG s body.clientMessage f.rand with
      | .error e => (.error e, st₁, [])
      | .ok r =>
        let st₂ : EnclaveState := { st₁ with sessions := smUpdate st₁.sessions r.sessionState }
        match r.done, r.result with
        | true, some res =>
          let accountId := f.accountId
          let st₃ : EnclaveState := { st₂ with shards := aset st₂.shards accountId res.serverShard }
          let md : AccountMetadata :=
            { accountId := accountId,
              address := res.address,
              publicKey := bytesToHex res.publicKey,
              label := body.label,
              createdAt := f.now,
              lastUsedAt := none }
          let st₄ : EnclaveState := { st₃ with metadata := aset st₃.metadata accountId md }
          let st₅ : EnclaveState := { st₄ with sessions := smDelete st₄.sessions body.sessionId }
          (.ok (.accountStepDone body.requestId body.sessionId accountId res.address),
           st₅,
           [.sessionUpdate r.sessionState, .genAccountId accountId,
            .persistShard accountId res.serverShard, .persistMetadata accountId md,
            .sessionDelete body.sessionId])
        | _, _ =>
          (.ok (.accountStepContinue body.requestId body.sessionId r.serverMessage),
           st₂, [.sessionUpdate r.sessionState])

/-- `handleGetPublicKey`. -/
def handleGetPublicKey (st : EnclaveState) (body : PKBody) : HandlerOut :=
  match body.accountId with
  | none => (.error "INVALID_REQUEST: accountId is required", st, [])
  | some accountId =>
    if (alookup st.shards accountId).isSome = false then
      (.error ("ACCOUNT_NOT_FOUND: Account " ++ accountId ++ " not found"), st, [])
    else
      match alookup st.metadata accountId with
      | none => (.error ("ACCOUNT_NOT_FOUND: No metadata found for " ++ accountId), st, [])
      | some metadata =>
        (.ok (.publicKey body.requestId metadata.accountId metadata.address metadata.publicKey),
         st, [])

/-- `handleSignStart`. -/
def handleSignStart (st : EnclaveState) (f : Fresh)
    (body : SignStartBody) : HandlerOut :=
  match body.accountId with
  | none => (.error "INVALID_REQUEST: accountId is required", st, [])
  | some accountId =>
    match alookup st.shards accountId with
    | none => (.error ("ACCOUNT_NOT_FOUND: Account " ++ accountId ++ " not found"), st, [])
    | some serverShard =>
      match body.clientMessage with
      | none => (.error "INVALID_REQUEST: clientMessage with messageHash required", st, [])
      | some none =>
        -- `JSON.parse` of an unparseable clientMessage throws a SyntaxError,
        -- which the dispatcher classifies as INTERNAL_ERROR.
        (.error "Unexpected token in JSON", st, [])
      | some (some init) =>
        let p := startSign f.sessionId serverShard init.messageHash f.rand f.now
        let s := { p.1 with accountId := some accountId }
        (.ok (.signStart body.requestId s.sessionId p.2),
         { st with sessions := smUpdate st.sessions s },
         [.sessionUpdate s])

/-- `handleSignStep`. -/
def handleSignStep (st : EnclaveState) (f : Fresh)
    (body : SignStepBody) : HandlerOut :=
  match smGet st.sessions body.sessionId f.now with
  | (none, sessions₁) =>
    (.error "INVALID_SESSION: Session not found or expired",
     { st with sessions := sessions₁ }, [])
  | (some s, sessions₁) =>
    let st₁ : EnclaveState := { st with sessions := sessions₁ }
    if s.protocol ≠ .SIGN then
      (.error "INVALID_SESSION: Session is not a signing session", st₁, [])
    else
      match stepSign s body.clientMessage with
      | .error e => (.error e, st₁, [])
      | .ok r =>
        let st₂ : EnclaveState := { st₁ with sessions := smUpdate st₁.sessions r.sessionState }
        match r.done, r.result with
        | true, some res =>
          let st₃ : EnclaveState := { st₂ with sessions := smDelete st₂.sessions body.sessionId }
          -- best-effort `lastUsedAt` touch; failures are swallowed
          match s.accountId with
          | none =>
            (.ok (.signStepDone body.requestId body.sessionId res.serverPartial), st₃,
             [.sessionUpdate r.sessionState, .sessionDelete body.sessionId])
          | some accountId =>
            match alookup st₃.metadata accountId with
            | none =>
              (.ok (.signStepDone body.requestId body.sessionId res.serverPartial), st₃,
               [.sessionUpdate r.sessionState, .sessionDelete body.sessionId])
            | some md =>
              let md₂ := { md with lastUsedAt := some f.now }
              (.ok (.signStepDone body.requestId body.sessionId res.serverPartial),
               { st₃ with metadata := aset st₃.metadata accountId md₂ },
               [.sessionUpdate r.sessionState, .sessionDelete body.sessionId,
                .persistMetadata accountId md₂])
        | _, _ =>
          (.ok (.signStepContinue body.requestId body.sessionId r.serverMessage),
           st₂, [.sessionUpdate r.sessionState])

/-- `handleRecoverStart`. -/
def handleRecoverStart (st : EnclaveState) (f : Fresh)
    (body : RecoverStartBody) : HandlerOut :=
  match body.accountId, body.clientMessage with
  | none, _ => (.error "INVALID_REQUEST: accountId and clientMessage required", st, [])
  | _, none => (.error "INVALID_REQUEST: accountId and clientMessage required", st, [])
  | some accountId, some clientMessage =>
    match alookup st.shards accountId with
    | none => (.error ("ACCOUNT_NOT_FOUND: Account " ++ accountId ++ " not found"), st, [])
    | some serverShard =>
      match startRecover f.sessionId accountId serverShard clientMessage f.now with
      | .error e => (.error e, st, [])
      | .ok r =>
        match r.done, r.result with
        | true, some res =>
          if res.verified then
            (.ok (.recoverDone body.requestId r.sessionState.sessionId res.address), st, [])
          else
            (.error "RECOVERY_FAILED: Client shard verification failed", st, [])
        | _, _ =>
          (.ok (.recoverContinue body.requestId r.sessionState.sessionId r.serverMessage),
           { st with sessions := smUpdate st.sessions r.sessionState },
           [.sessionUpdate r.sessionState])

/-- `handleRecoverStep`. -/
def handleRecoverStep (st : EnclaveState) (f : Fresh)
    (body : RecoverStepBody) : HandlerOut :=
  match smGet st.sessions body.sessionId f.now with
  | (none, sessions₁) =>
    (.error "INVALID_SESSION: Session not found or expired",
     { st with sessions := sessions₁ }, [])
  | (some s, sessions₁) =>
    let st₁ : EnclaveState := { st with sessions := sessions₁ }
    if s.protocol ≠ .RECOVER then
      (.error "INVALID_SESSION: Session is not a recovery session", st₁, [])
    else
      match stepRecover s body.clientMessage with
      | .error e => (.error e, st₁, [])
      | .ok r =>
        match r.done, r.result with
        | true, some res =>
          (.ok (.recoverDone body.requestId body.sessionId res.address),
           { st₁ with sessions := smDelete st₁.sessions body.sessionId },
           [.sessionDelete body.sessionId])
        | _, _ =>
          (.ok (.recoverContinue body.requestId body.sessionId r.serverMessage),
           { st₁ with sessions := smUpdate st₁.sessions r.sessionState },
           [.sessionUpdate r.sessionState])

/-! ## `processRequest`: routing and error mapping -/

/-- The endpoint-tagged request body (`endpoint` routing switch;
`unknownEndpoint` covers the `default: throw` case). -/
inductive ReqBody where
  | health
  | createAccountStart (b : StartBody)
  | createAccountStep (b : CreateStepBody)
  | getPublicKey (b : PKBody)
  | signStart (b : SignStartBody)
  | signStep (b : SignStepBody)
  | recoverStart (b : RecoverStartBody)
  | recoverStep (b : RecoverStepBody)
  | unknownEndpoint (endpoint : String)
deriving DecidableEq, Repr

/-- The transport-level request envelope (`VsockRequest`). -/
structure VsockRequest where
  body : ReqBody
  requestId : Option String
deriving DecidableEq, Repr

/-- The transport-level response envelope (`VsockResponse`; the ISO
timestamp string is not modelled). -/
structure VsockResponse where
  success : Bool
  data : Option HandlerData
  error : Option (ErrorCode × String)
  requestId : Option String
deriving DecidableEq, Repr

/-- The error code of a response, if it is an error response. -/
def errCodeOf (r : VsockResponse) : Option ErrorCode :=
  r.error.map Prod.fst

/-- `processRequest`: route to the handler, then wrap the outcome in the
response envelope, classifying a thrown message into the error
taxonomy. -/
def processRequest (st : EnclaveState) (f : Fresh) (req : VsockRequest) :
    VsockResponse × EnclaveState × List Effect :=
  let out : HandlerOut :=
    match req.body with
    | .health => (.ok .health, st, [])
    | .createAccountStart b => handleCreateAccountStart st f b
    | .createAccountStep b => handleCreateAccountStep st f b
    | .getPublicKey b => handleGetPublicKey st b
    | .signStart b => handleSignStart st f b
    | .signStep b => handleSignStep st f b
    | .recoverStart b => handleRecoverStart st f b
    | .recoverStep b => handleRecoverStep st f b
    | .unknownEndpoint e => (.error ("Unknown endpoint: " ++ e), st, [])
  match out with
  | (.ok d, st₂, tr) =>
    ({ success := true, data := some d, error := none, requestId := req.requestId }, st₂, tr)
  | (.error msg, st₂, tr) =>
    ({ success := false, data := none, error := some (classifyError msg, msg),
       requestId := req.requestId }, st₂, tr)

/-- The states the running enclave can be in: the empty initial state,
followed by any interleaving of dispatched requests and the periodic
`sessionManager.cleanup()` timer. -/
inductive Reachable : EnclaveState → Prop where
  | init : Reachable { sessions := [], shards := [], metadata := [] }
  | step (st : EnclaveState) (f : Fresh) (req : VsockRequest) :
      Reachable st → Reachable (processRequest st f req).2.1
  | sweep (st : EnclaveState) (now : Nat) :
      Reachable st → Reachable { st with sessions := smCleanup st.sessions now }

/-! ## vsock transport framing (`handleConnection`)

The per-connection `data` listener appends each chunk to the string
buffer and tries `JSON.parse` on the whole buffer.  `JSON.parse` either
produces a request or throws a `SyntaxError`; the listener waits for more
data on failure only while the buffer is shorter than 100 000, and
otherwise writes one `INVALID_REQUEST` response and schedules
`socket.end()` via a delayed `setTimeout`.  The listener is never
detached and no flag marks the connection as finished, so every `data`
event delivered while the socket is still open is processed the same
way: a peer that keeps streaming unparseable data past the limit draws
one `INVALID_REQUEST` response per event until the deferred `end()`
takes effect.  The chunk list below stands for the `data` events the
listener actually receives before the socket goes down; the parse
function is a parameter of the embedding (it stands for `JSON.parse`
composed with the request decoding); theorems quantify over both. -/

/-- What the `data` listener does with the accumulated buffer on one
event: keep waiting, dispatch a parsed request (write its response,
schedule `end()`), or write the parse-error response and schedule
`end()`. -/
inductive ConnAction where
  | wait
  | respond (req : VsockRequest)
  | errorEnd
deriving DecidableEq, Repr

/-- One `data` event: append the chunk, try to parse. -/
def onData (parse : String → Option VsockRequest) (buffer chunk : String) :
    String × ConnAction :=
  let buf := buffer ++ chunk
  match parse buf with
  | some req => (buf, .respond req)
  | none => if buf.length < 100000 then (buf, .wait) else (buf, .errorEnd)

/-- The `INVALID_REQUEST` response written when the buffer can no longer
become a request. -/
def parseErrorResponse : VsockResponse :=
  { success := false, data := none,
    error := some (.INVALID_REQUEST, "Failed to parse request"),
    requestId := none }

/-- The observable outcome of one connection: the responses written in
order, and whether `socket.end()` has been scheduled by some event. -/
structure ConnResult where
  buffer : String
  writes : List VsockResponse
  endRequested : Bool
deriving DecidableEq, Repr

/-- Feed the `data` events of one connection through the listener.
`dispatch` abstracts `processRequest` composed with the response
serialisation: the single response written for a parsed request.  Every
delivered event is processed — the listener stays attached and the
close is only scheduled, never performed by the listener itself. -/
def runConn (parse : String → Option VsockRequest)
    (dispatch : VsockRequest → VsockResponse) :
    List String → ConnResult → ConnResult
  | [], acc => acc
  | chunk :: rest, acc =>
    match onData parse acc.buffer chunk with
    | (buf, .wait) => runConn parse dispatch rest { acc with buffer := buf }
    | (buf, .respond req) =>
      runConn parse dispatch rest
        { buffer := buf, writes := acc.writes ++ [dispatch req], endRequested := true }
    | (buf, .errorEnd) =>
      runConn parse dispatch rest
        { buffer := buf, writes := acc.writes ++ [parseErrorResponse], endRequested := true }

/-- A whole connection starting from the empty buffer. -/
def runConnection (parse : String → Option VsockRequest)
    (dispatch : VsockRequest → VsockResponse) (chunks : List String) : ConnResult :=
  runConn parse dispatch chunks { buffer := "", writes := [], endRequested := false }

/-- How many `data` events find the accumulated buffer at or past the
100 000 limit, starting from a buffer of `bufLen` characters. -/
def overflowEvents (bufLen : Nat) : List String → Nat
  | [] => 0
  | c :: rest =>
    (if bufLen + c.length < 100000 then 0 else 1)
      + overflowEvents (bufLen + c.length) rest

/-! ## Shared helper lemmas -/

theorem classify_session_notfound :
    classifyError "INVALID_SESSION: Session not found or expired" =
      ErrorCode.INVALID_SESSION := by decide

theorem classify_not_dkg :
    classifyError "INVALID_SESSION: Session is not a DKG session" =
      ErrorCode.INVALID_SESSION := by decide

theorem classify_not_sign :
    classifyError "INVALID_SESSION: Session is not a signing session" =
      ErrorCode.INVALID_SESSION := by decide

theorem classify_not_recover :
    classifyError "INVALID_SESSION: Session is not a recovery session" =
      ErrorCode.INVALID_SESSION := by decide

/-- Concrete expired-session scenario used by witnesses: a DKG session
created at time 0 (so it expires at 300000). -/
def wSession : MPCSessionState := (startDKG "sess-w" [1] [2] 0).1

/-- A state holding only `wSession`. -/
def wState : EnclaveState :=
  { sessions := [("sess-w", wSession)], shards := [], metadata := [] }

/-- Environment values for a call strictly after the session expired. -/
def wFreshLate : Fresh :=
  { now := 300001, sessionId := "sess-x", accountId := "acct-x",
    privKey := [3], rand := [4] }

/-! ## Claims -/

/-- C2: for every session and every step call made at a time strictly
after the session's `expiresAt`, the call yields `INVALID_SESSION` and
never a success — for all three step endpoints — and `SessionManager.get`
itself reports the expired session absent on read, independent of the
periodic cleanup. -/
theorem expired_session_step_invalid :
    (∀ (st : EnclaveState) (f : Fresh) (body : CreateStepBody)
       (rid : Option String) (s : MPCSessionState),
       alookup st.sessions body.sessionId = some s →
       f.now > s.expiresAt →
       (processRequest st f ⟨.createAccountStep body, rid⟩).1.success = false ∧
       errCodeOf (processRequest st f ⟨.createAccountStep body, rid⟩).1 =
         some .INVALID_SESSION) ∧
    (∀ (st : EnclaveState) (f : Fresh) (body : SignStepBody)
       (rid : Option String) (s : MPCSessionState),
       alookup st.sessions body.sessionId = some s →
       f.now > s.expiresAt →
       (processRequest st f ⟨.signStep body, rid⟩).1.success = false ∧
       errCodeOf (processRequest st f ⟨.signStep body, rid⟩).1 =
         some .INVALID_SESSION) ∧
    (∀ (st : EnclaveState) (f : Fresh) (body : RecoverStepBody)
       (rid : Option String) (s : MPCSessionState),
       alookup st.sessions body.sessionId = some s →
       f.now > s.expiresAt →
       (processRequest st f ⟨.recoverStep body, rid⟩).1.success = false ∧
       errCodeOf (processRequest st f ⟨.recoverStep body, rid⟩).1 =
         some .INVALID_SESSION) ∧
    (∀ (sessions : Sessions) (sid : String) (now : Nat) (s : MPCSessionState),
       alookup sessions sid = some s →
       now > s.expiresAt →
       (smGet sessions sid now).1 = none) := by
  refine ⟨?_, ?_, ?_, ?_⟩
  · intro st f body rid s h₁ h₂
    simp [processRequest, handleCreateAccountStep, smGet, h₁, h₂, errCodeOf,
      classify_session_notfound]
  · intro st f body rid s h₁ h₂
    simp [processRequest, handleSignStep, smGet, h₁, h₂, errCodeOf,
      classify_session_notfound]
  · intro st f body rid s h₁ h₂
    simp [processRequest, handleRecoverStep, smGet, h₁, h₂, errCodeOf,
      classify_session_notfound]
  · intro sessions sid now s h₁ h₂
    simp [smGet, h₁, h₂]

/-- Witness for C2 at a concrete expired session. -/
theorem expired_session_step_invalid_witness :
    (processRequest wState wFreshLate
        ⟨.createAccountStep ⟨none, "sess-w", some ⟨1, "m", [0]⟩, none⟩, none⟩).1.success
        = false ∧
    errCodeOf (processRequest wState wFreshLate
        ⟨.createAccountStep ⟨none, "sess-w", some ⟨1, "m", [0]⟩, none⟩, none⟩).1 =
      some .INVALID_SESSION :=
  expired_session_step_invalid.1 wState wFreshLate
    ⟨none, "sess-w", some ⟨1, "m", [0]⟩, none⟩ none wSession (by decide) (by decide)

/-- C3: a step call whose sessionId resolves to a live session of a
different protocol always yields `INVALID_SESSION`, for each of the three
step endpoints. -/
theorem protocol_mismatch_step_invalid :
    (∀ (st : EnclaveState) (f : Fresh) (body : CreateStepBody)
       (rid : Option String) (s : MPCSessionState),
       alookup st.sessions body.sessionId = some s →
       ¬ f.now > s.expiresAt →
       s.protocol ≠ .DKG →
       (processRequest st f ⟨.createAccountStep body, rid⟩).1.success = false ∧
       errCodeOf (processRequest st f ⟨.createAccountStep body, rid⟩).1 =
         some .INVALID_SESSION) ∧
    (∀ (st : EnclaveState) (f : Fresh) (body : SignStepBody)
       (rid : Option String) (s : MPCSessionState),
       alookup st.sessions body.sessionId = some s →
       ¬ f.now > s.expiresAt →
       s.protocol ≠ .SIGN →
       (processRequest st f ⟨.signStep body, rid⟩).1.success = false ∧
       errCodeOf (processRequest st f ⟨.signStep body, rid⟩).1 =
         some .INVALID_SESSION) ∧
    (∀ (st : EnclaveState) (f : Fresh) (body : RecoverStepBody)
       (rid : Option String) (s : MPCSessionState),
       alookup st.sessions body.sessionId = some s →
       ¬ f.now > s.expiresAt →
       s.protocol ≠ .RECOVER →
       (processRequest st f ⟨.recoverStep body, rid⟩).1.success = false ∧
       errCodeOf (processRequest st f ⟨.recoverStep body, rid⟩).1 =
         some .INVALID_SESSION) := by
  refine ⟨?_, ?_, ?_⟩
  · intro st f body rid s h₁ h₂ h₃
    simp [processRequest, handleCreateAccountStep, smGet, h₁, h₂, h₃, errCodeOf,
      classify_not_dkg]
  · intro st f body rid s h₁ h₂ h₃
    simp [processRequest, handleSignStep, smGet, h₁, h₂, h₃, errCodeOf,
      classify_not_sign]
  · intro st f body rid s h₁ h₂ h₃
    simp [processRequest, handleRecoverStep, smGet, h₁, h₂, h₃, errCodeOf,
      classify_not_recover]

/-- Witness for C3: a sign step against the live DKG session `wSession`. -/
theorem protocol_mismatch_step_invalid_witness :
    (processRequest wState
        ⟨1, "sess-x", "acct-x", [3], [4]⟩
        ⟨.signStep ⟨none, "sess-w", some ⟨1, "m", [0]⟩⟩, none⟩).1.success = false ∧
    errCodeOf (processRequest wState
        ⟨1, "sess-x", "acct-x", [3], [4]⟩
        ⟨.signStep ⟨none, "sess-w", some ⟨1, "m", [0]⟩⟩, none⟩).1 =
      some .INVALID_SESSION :=
  protocol_mismatch_step_invalid.2.1 wState
    ⟨1, "sess-x", "acct-x", [3], [4]⟩
    ⟨none, "sess-w", some ⟨1, "m", [0]⟩⟩ none wSession
    (by decide) (by decide) (by decide)

/-- Helper: full characterisation of a terminal `createAccount/step` (the
looked-up session is a live DKG session in round 3 with a decodable
client message). -/
theorem handleCreateAccountStep_terminal (st : EnclaveState) (f : Fresh)
    (body : CreateStepBody) (s : MPCSessionState) (fpk : Bytes)
    (mx : Nat) (cc cs : Option Bytes) (m : ProtoMsg)
    (h₁ : alookup st.sessions body.sessionId = some s)
    (h₂ : ¬ f.now > s.expiresAt)
    (h₃ : s.protocol = .DKG)
    (h₄ : s.internalState = .dkg fpk 3 mx cc cs)
    (h₅ : body.clientMessage = some m) :
    handleCreateAccountStep st f body =
      (.ok (.accountStepDone body.requestId body.sessionId f.accountId
          (walletAddress fpk)),
       { sessions := smDelete (smUpdate st.sessions s) body.sessionId,
         shards := aset st.shards f.accountId fpk,
         metadata := aset st.metadata f.accountId
           { accountId := f.accountId,
             address := walletAddress fpk,
             publicKey := bytesToHex (pubKeyOfPriv fpk),
             label := body.label,
             createdAt := f.now,
             lastUsedAt := none } },
       [.sessionUpdate s, .genAccountId f.accountId,
        .persistShard f.accountId fpk,
        .persistMetadata f.accountId
          { accountId := f.accountId,
            address := walletAddress fpk,
            publicKey := bytesToHex (pubKeyOfPriv fpk),
            label := body.label,
            createdAt := f.now,
            lastUsedAt := none },
        .sessionDelete body.sessionId]) := by
  simp [handleCreateAccountStep, smGet, stepDKG, h₁, h₂, h₃, h₄, h₅]

/-- A live DKG session already in round 3 (terminal on the next step),
used by witnesses. -/
def wSession3 : MPCSessionState :=
  { wSession with internalState := .dkg [1] 3 3 (some [8]) (some [9]) }

/-- A state holding only `wSession3`. -/
def wState3 : EnclaveState :=
  { sessions := [("sess-w", wSession3)], shards := [], metadata := [] }

/-- Environment values for a call while `wSession3` is still live. -/
def wFreshLive : Fresh :=
  { now := 10, sessionId := "sess-y", accountId := "acct-y",
    privKey := [5], rand := [6] }

/-- C4: on the terminal `createAccount/step` the dispatcher's operations,
in program order, are: store the engine's final session state, generate a
fresh accountId, persist the server shard under it, persist the account
metadata, and only then delete the session — so both persistence
operations precede the session deletion. -/
theorem terminal_step_effect_order (st : EnclaveState) (f : Fresh)
    (body : CreateStepBody) (s : MPCSessionState) (fpk : Bytes)
    (mx : Nat) (cc cs : Option Bytes) (m : ProtoMsg)
    (h₁ : alookup st.sessions body.sessionId = some s)
    (h₂ : ¬ f.now > s.expiresAt)
    (h₃ : s.protocol = .DKG)
    (h₄ : s.internalState = .dkg fpk 3 mx cc cs)
    (h₅ : body.clientMessage = some m) :
    (handleCreateAccountStep st f body).2.2 =
      [.sessionUpdate s, .genAccountId f.accountId,
       .persistShard f.accountId fpk,
       .persistMetadata f.accountId
         { accountId := f.accountId,
           address := walletAddress fpk,
           publicKey := bytesToHex (pubKeyOfPriv fpk),
           label := body.label,
           createdAt := f.now,
           lastUsedAt := none },
       .sessionDelete body.sessionId] := by
  rw [handleCreateAccountStep_terminal st f body s fpk mx cc cs m h₁ h₂ h₃ h₄ h₅]

/-- Witness for C4: the concrete round-3 session `wSession3`. -/
theorem terminal_step_effect_order_witness :
    (handleCreateAccountStep wState3 wFreshLive
        ⟨none, "sess-w", some ⟨3, "m", [0]⟩, none⟩).2.2 =
      [.sessionUpdate wSession3, .genAccountId "acct-y",
       .persistShard "acct-y" [1],
       .persistMetadata "acct-y"
         { accountId := "acct-y",
           address := walletAddress [1],
           publicKey := bytesToHex (pubKeyOfPriv [1]),
           label := none,
           createdAt := 10,
           lastUsedAt := none },
       .sessionDelete "sess-w"] :=
  terminal_step_effect_order wState3 wFreshLive
    ⟨none, "sess-w", some ⟨3, "m", [0]⟩, none⟩ wSession3 [1] 3 (some [8]) (some [9])
    ⟨3, "m", [0]⟩ (by decide) (by decide) (by decide) (by decide) (by decide)

/-- C6: once a protocol run returns `Done` the dispatcher deletes the
session (terminal DKG and SIGN steps leave no binding for the sessionId),
and a step call against a state with no binding for the sessionId always
yields `INVALID_SESSION`, never a second success. -/
theorem done_session_deleted_no_replay :
    (∀ (st : EnclaveState) (f : Fresh) (body : CreateStepBody)
       (s : MPCSessionState) (fpk : Bytes) (mx : Nat) (cc cs : Option Bytes)
       (m : ProtoMsg),
       alookup st.sessions body.sessionId = some s →
       ¬ f.now > s.expiresAt →
       s.protocol = .DKG →
       s.internalState = .dkg fpk 3 mx cc cs →
       body.clientMessage = some m →
       (handleCreateAccountStep st f body).1 =
         .ok (.accountStepDone body.requestId body.sessionId f.accountId
           (walletAddress fpk)) ∧
       alookup (handleCreateAccountStep st f body).2.1.sessions body.sessionId =
         none) ∧
    (∀ (st : EnclaveState) (f : Fresh) (body : SignStepBody)
       (s : MPCSessionState) (shard mh : Bytes) (mx : Nat) (m : ProtoMsg),
       alookup st.sessions body.sessionId = some s →
       ¬ f.now > s.expiresAt →
       s.protocol = .SIGN →
       s.internalState = .signing shard mh 1 mx →
       body.clientMessage = some m →
       (handleSignStep st f body).1 =
         .ok (.signStepDone body.requestId body.sessionId (signPartial shard mh)) ∧
       alookup (handleSignStep st f body).2.1.sessions body.sessionId = none) ∧
    (∀ (st : EnclaveState) (f : Fresh) (body : CreateStepBody) (rid : Option String),
       alookup st.sessions body.sessionId = none →
       (processRequest st f ⟨.createAccountStep body, rid⟩).1.success = false ∧
       errCodeOf (processRequest st f ⟨.createAccountStep body, rid⟩).1 =
         some .INVALID_SESSION) ∧
    (∀ (st : EnclaveState) (f : Fresh) (body : SignStepBody) (rid : Option String),
       alookup st.sessions body.sessionId = none →
       (processRequest st f ⟨.signStep body, rid⟩).1.success = false ∧
       errCodeOf (processRequest st f ⟨.signStep body, rid⟩).1 =
         some .INVALID_SESSION) ∧
    (∀ (st : EnclaveState) (f : Fresh) (body : RecoverStepBody) (rid : Option String),
       alookup st.sessions body.sessionId = none →
       (processRequest st f ⟨.recoverStep body, rid⟩).1.success = false ∧
       errCodeOf (processRequest st f ⟨.recoverStep body, rid⟩).1 =
         some .INVALID_SESSION) := by
  refine ⟨?_, ?_, ?_, ?_, ?_⟩
  · intro st f body s fpk mx cc cs m h₁ h₂ h₃ h₄ h₅
    rw [handleCreateAccountStep_terminal st f body s fpk mx cc cs m h₁ h₂ h₃ h₄ h₅]
    exact ⟨rfl, alookup_aerase_self _ _⟩
  · intro st f body s shard mh mx m h₁ h₂ h₃ h₄ h₅
    have hresp :
        (handleSignStep st f body).1 =
          .ok (.signStepDone body.requestId body.sessionId (signPartial shard mh)) ∧
        (handleSignStep st f body).2.1.sessions =
          smDelete (smUpdate st.sessions s) body.sessionId := by
      cases hacc : s.accountId with
      | none =>
        simp [handleSignStep, smGet, stepSign, h₁, h₂, h₃, h₄, h₅, hacc]
      | some accountId =>
        cases hmd : alookup st.metadata accountId with
        | none =>
          simp [handleSignStep, smGet, stepSign, h₁, h₂, h₃, h₄, h₅, hacc, hmd]
        | some md =>
          simp [handleSignStep, smGet, stepSign, h₁, h₂, h₃, h₄, h₅, hacc, hmd]
    refine ⟨hresp.1, ?_⟩
    rw [hresp.2]
    exact alookup_aerase_self _ _
  · intro st f body rid h
    simp [processRequest, handleCreateAccountStep, smGet, h, errCodeOf,
      classify_session_notfound]
  · intro st f body rid h
    simp [processRequest, handleSignStep, smGet, h, errCodeOf,
      classify_session_notfound]
  · intro st f body rid h
    simp [processRequest, handleRecoverStep, smGet, h, errCodeOf,
      classify_session_notfound]

/-- Witness for C6: terminal step on `wSession3`, then the binding is gone. -/
theorem done_session_deleted_no_replay_witness :
    (handleCreateAccountStep wState3 wFreshLive
        ⟨none, "sess-w", some ⟨3, "m", [0]⟩, none⟩).1 =
      .ok (.accountStepDone none "sess-w" "acct-y" (walletAddress [1])) ∧
    alookup (handleCreateAccountStep wState3 wFreshLive
        ⟨none, "sess-w", some ⟨3, "m", [0]⟩, none⟩).2.1.sessions "sess-w" = none :=
  done_session_deleted_no_replay.1 wState3 wFreshLive
    ⟨none, "sess-w", some ⟨3, "m", [0]⟩, none⟩ wSession3 [1] 3 (some [8]) (some [9])
    ⟨3, "m", [0]⟩ (by decide) (by decide) (by decide) (by decide) (by decide)

/-- The engine-internal round counter stored in `internalState`. -/
def currentRoundOf : InternalState → Option Nat
  | .dkg _ currentRound _ _ _ => some currentRound
  | .signing _ _ currentRound _ => some currentRound
  | _ => none

/-- C5 (counterexample): a successful non-terminal `createAccount/step`
against the round-1 DKG session `wSession` leaves the stored session's
`round` field at 1 — it is not incremented to `round + 1` as claimed. -/
theorem round_not_incremented_counterexample :
    (processRequest wState wFreshLive
        ⟨.createAccountStep ⟨none, "sess-w", some ⟨1, "dkg_commitment", [7]⟩, none⟩,
         none⟩).1.success = true ∧
    Option.map MPCSessionState.round
      (alookup (processRequest wState wFreshLive
          ⟨.createAccountStep ⟨none, "sess-w", some ⟨1, "dkg_commitment", [7]⟩, none⟩,
           none⟩).2.1.sessions "sess-w") = some 1 ∧
    ¬ Option.map MPCSessionState.round
        (alookup (processRequest wState wFreshLive
            ⟨.createAccountStep ⟨none, "sess-w", some ⟨1, "dkg_commitment", [7]⟩, none⟩,
             none⟩).2.1.sessions "sess-w") = some (wSession.round + 1) := by
  decide

/-- C5 (amended): across every successful engine step the session's
`round` field is left unchanged (it stays at its creation value and is
never incremented); progress is tracked instead in `internalState`, which
the dispatcher replaces on each successful step — on a non-terminal DKG
step the engine's `currentRound` inside `internalState` increases by one
and the dispatcher stores the engine's updated session state. -/
theorem round_constant_internal_round_increments :
    (∀ (s : MPCSessionState) (m : ClientMsg) (rand : Bytes)
       (r : EngineStep DKGResult),
       stepDKG s m rand = .ok r → r.sessionState.round = s.round) ∧
    (∀ (s : MPCSessionState) (m : ClientMsg)
       (r : EngineStep SigningResult),
       stepSign s m = .ok r → r.sessionState.round = s.round) ∧
    (∀ (s : MPCSessionState) (m : ClientMsg) (rand : Bytes)
       (r : EngineStep DKGResult),
       stepDKG s m rand = .ok r → r.done = false →
       currentRoundOf r.sessionState.internalState =
         Option.map (fun n => n + 1) (currentRoundOf s.internalState)) ∧
    (∀ (st : EnclaveState) (f : Fresh) (body : CreateStepBody)
       (s : MPCSessionState) (r : EngineStep DKGResult),
       alookup st.sessions body.sessionId = some s →
       ¬ f.now > s.expiresAt →
       s.protocol = .DKG →
       stepDKG s body.clientMessage f.rand = .ok r →
       r.done = false →
       alookup (handleCreateAccountStep st f body).2.1.sessions
         r.sessionState.sessionId = some r.sessionState) := by
  refine ⟨?_, ?_, ?_, ?_⟩
  · intro s m rand r h
    rw [stepDKG.eq_def] at h
    split at h
    · exact Except.noConfusion h
    · split at h
      · exact Except.noConfusion h
      · split at h
        · split at h
          · cases h; rfl
          · split at h
            · cases h; rfl
            · split at h
              · cases h; rfl
              · exact Except.noConfusion h
        · exact Except.noConfusion h
  · intro s m r h
    rw [stepSign.eq_def] at h
    split at h
    · exact Except.noConfusion h
    · split at h
      · exact Except.noConfusion h
      · split at h
        · split at h
          · cases h; rfl
          · exact Except.noConfusion h
        · exact Except.noConfusion h
  · intro s m rand r h hdone
    rw [stepDKG.eq_def] at h
    split at h
    · exact Except.noConfusion h
    · split at h
      · exact Except.noConfusion h
      · rename_i heq
        split at h
        · rename_i fpk cur mx cc cs hstate
          split at h
          · rename_i hcur
            cases h
            simp [hstate, hcur, currentRoundOf]
          · split at h
            · rename_i hcur
              cases h
              simp [hstate, hcur, currentRoundOf]
            · split at h
              · cases h
                simp at hdone
              · exact Except.noConfusion h
        · exact Except.noConfusion h
  · intro st f body s r h₁ h₂ h₃ h₄ h₅
    simp [handleCreateAccountStep, smGet, h₁, h₂, h₃, h₄, h₅, smUpdate,
      alookup_aset_self]

/-- Witness for C5's amended theorem: the concrete round-1 step on
`wSession`. -/
theorem round_constant_internal_round_increments_witness :
    currentRoundOf (InternalState.dkg [1] 2 3 (some [7]) none) =
      Option.map (fun n => n + 1) (currentRoundOf wSession.internalState) :=
  round_constant_internal_round_increments.2.2.1 wSession
    (some ⟨1, "dkg_commitment", [7]⟩) [6]
    { sessionState := { wSession with internalState := .dkg [1] 2 3 (some [7]) none },
      done := false,
      serverMessage := some ⟨2, "dkg_share_commitment", [6]⟩,
      result := none }
    (by rfl) (by rfl)

/-- A state with one stored account shard `[1, 2, 3]` under `acct-1`. -/
def c1State : EnclaveState :=
  { sessions := [], shards := [("acct-1", [1, 2, 3])], metadata := [] }

/-- C1 (counterexample): a `recover/start` whose challenge bytes
`[9, 9, 9]` do not match the stored server shard `[1, 2, 3]` is answered
with a successful `DONE` response carrying the account's address — not
with a `RECOVERY_FAILED` error as claimed. -/
theorem recovery_failed_counterexample :
    (processRequest c1State ⟨0, "sess-r", "acct-r", [0], [0]⟩
        ⟨.recoverStart ⟨none, some "acct-1",
           some (some ⟨1, "recover_challenge", [9, 9, 9]⟩)⟩, none⟩).1.success = true ∧
    errCodeOf (processRequest c1State ⟨0, "sess-r", "acct-r", [0], [0]⟩
        ⟨.recoverStart ⟨none, some "acct-1",
           some (some ⟨1, "recover_challenge", [9, 9, 9]⟩)⟩, none⟩).1 = none ∧
    (processRequest c1State ⟨0, "sess-r", "acct-r", [0], [0]⟩
        ⟨.recoverStart ⟨none, some "acct-1",
           some (some ⟨1, "recover_challenge", [9, 9, 9]⟩)⟩, none⟩).1.data =
      some (.recoverDone none "sess-r" (walletAddress [1, 2, 3])) := by
  decide

/-- C1 (amended): the dispatcher would return `RECOVERY_FAILED` only if
the engine reported `verified = false`, but the mock engine auto-verifies:
for every existing account and every decodable challenge — matching the
stored shard or not — `recover/start` succeeds with `DONE` and the address
derived from the stored server shard, and the engine's result always has
`verified = true`.  A `DONE` response with `verified = false` is therefore
never produced. -/
theorem recover_start_auto_verifies (st : EnclaveState) (f : Fresh)
    (body : RecoverStartBody) (aid : String) (shard : Bytes) (m : ProtoMsg)
    (h₁ : body.accountId = some aid)
    (h₂ : body.clientMessage = some (some m))
    (h₃ : alookup st.shards aid = some shard) :
    handleRecoverStart st f body =
      (.ok (.recoverDone body.requestId f.sessionId (walletAddress shard)), st, []) ∧
    startRecover f.sessionId aid shard (some m) f.now =
      .ok { sessionState :=
              { sessionId := f.sessionId,
                protocol := .RECOVER,
                round := 1,
                accountId := some aid,
                internalState := .recovery shard m.data true,
                createdAt := f.now,
                expiresAt := f.now + 300000 },
            done := true,
            serverMessage := none,
            result := some { verified := true, address := walletAddress shard } } := by
  constructor
  · simp [handleRecoverStart, h₁, h₂, h₃, startRecover]
  · rfl

/-- Witness for C1's amended theorem at the concrete mismatched
challenge. -/
theorem recover_start_auto_verifies_witness :
    handleRecoverStart c1State ⟨0, "sess-r", "acct-r", [0], [0]⟩
        ⟨none, some "acct-1", some (some ⟨1, "recover_challenge", [9, 9, 9]⟩)⟩ =
      (.ok (.recoverDone none "sess-r" (walletAddress [1, 2, 3])), c1State, []) ∧
    startRecover "sess-r" "acct-1" [1, 2, 3]
        (some ⟨1, "recover_challenge", [9, 9, 9]⟩) 0 =
      .ok { sessionState :=
              { sessionId := "sess-r",
                protocol := .RECOVER,
                round := 1,
                accountId := some "acct-1",
                internalState := .recovery [1, 2, 3] [9, 9, 9] true,
                createdAt := 0,
                expiresAt := 300000 },
            done := true,
            serverMessage := none,
            result := some { verified := true, address := walletAddress [1, 2, 3] } } :=
  recover_start_auto_verifies c1State ⟨0, "sess-r", "acct-r", [0], [0]⟩
    ⟨none, some "acct-1", some (some ⟨1, "recover_challenge", [9, 9, 9]⟩)⟩
    "acct-1" [1, 2, 3] ⟨1, "recover_challenge", [9, 9, 9]⟩ rfl rfl (by decide)

/-- C8 (counterexample): the in-memory backend accepts the
path-traversal-style accountId `".."`: `persistServerShard` succeeds and
`has` returns `ok false` instead of failing with `INVALID_REQUEST`. -/
theorem memory_keystore_no_validation_counterexample :
    MemKS.persistServerShard ⟨[], []⟩ ".." [1] = .ok ⟨[("..", [1])], []⟩ ∧
    MemKS.hasAccount ⟨[], []⟩ ".." = .ok false ∧
    badAccountId ".." = true :=
  ⟨rfl, rfl, by decide⟩

/-- C8 (amended): only the file-backed keystore validates account
identifiers: for every malformed accountId (empty, or containing `/`,
`\`, or `..`) all five `FileSealedKeyStore` operations fail with
`INVALID_REQUEST` before touching any path, while the in-memory backend
performs no validation — its persist and `has` operations accept every
accountId. -/
theorem file_keystore_validates_memory_does_not :
    (∀ (ks : FileKS) (a : String) (sh : Bytes) (md : AccountMetadata),
       badAccountId a = true →
       ks.persistServerShard a sh = .error "INVALID_REQUEST: Invalid accountId format" ∧
       ks.loadServerShard a = .error "INVALID_REQUEST: Invalid accountId format" ∧
       ks.hasAccount a = .error "INVALID_REQUEST: Invalid accountId format" ∧
       ks.persistAccountMetadata a md = .error "INVALID_REQUEST: Invalid accountId format" ∧
       ks.loadAccountMetadata a = .error "INVALID_REQUEST: Invalid accountId format") ∧
    (badAccountId "" = true ∧ badAccountId "a/b" = true ∧
     badAccountId "a\\b" = true ∧ badAccountId "a..b" = true) ∧
    (∀ (ks : MemKS) (a : String) (sh : Bytes) (md : AccountMetadata),
       MemKS.persistServerShard ks a sh = .ok { ks with shards := aset ks.shards a sh } ∧
       MemKS.hasAccount ks a = .ok (alookup ks.shards a).isSome ∧
       MemKS.persistAccountMetadata ks a md =
         .ok { ks with metadata := aset ks.metadata a md }) := by
  refine ⟨?_, by decide, ?_⟩
  · intro ks a sh md h
    refine ⟨?_, ?_, ?_, ?_, ?_⟩ <;>
      simp [FileKS.persistServerShard, FileKS.loadServerShard, FileKS.hasAccount,
        FileKS.persistAccountMetadata, FileKS.loadAccountMetadata, h]
  · intro ks a sh md
    exact ⟨rfl, rfl, rfl⟩

/-- Witness for C8's amended theorem at the malformed accountId `".."`. -/
theorem file_keystore_validates_witness :
    FileKS.persistServerShard ⟨"/opt/enclave/sealed", [], []⟩ ".." [1] =
        .error "INVALID_REQUEST: Invalid accountId format" ∧
    FileKS.loadServerShard ⟨"/opt/enclave/sealed", [], []⟩ ".." =
        .error "INVALID_REQUEST: Invalid accountId format" ∧
    FileKS.hasAccount ⟨"/opt/enclave/sealed", [], []⟩ ".." =
        .error "INVALID_REQUEST: Invalid accountId format" ∧
    FileKS.persistAccountMetadata ⟨"/opt/enclave/sealed", [], []⟩ ".."
        ⟨"a", [], "", none, 0, none⟩ =
        .error "INVALID_REQUEST: Invalid accountId format" ∧
    FileKS.loadAccountMetadata ⟨"/opt/enclave/sealed", [], []⟩ ".." =
        .error "INVALID_REQUEST: Invalid accountId format" :=
  file_keystore_validates_memory_does_not.1 ⟨"/opt/enclave/sealed", [], []⟩ ".."
    [1] ⟨"a", [], "", none, 0, none⟩ (by decide)

/-! ## The RECOVER-session invariant (C10 infrastructure) -/

/-- No stored session is a RECOVER session. -/
def noRecoverSessions (sessions : Sessions) : Prop :=
  ∀ p ∈ sessions, p.2.protocol ≠ Protocol.RECOVER

theorem noRecoverSessions_nil : noRecoverSessions [] := by
  intro p hp
  cases hp

theorem noRecover_aerase (l : Sessions) (k : String)
    (h : noRecoverSessions l) : noRecoverSessions (aerase l k) :=
  fun p hp => h p (mem_aerase l k p hp)

theorem noRecover_aset (l : Sessions) (k : String) (s : MPCSessionState)
    (h : noRecoverSessions l) (hs : s.protocol ≠ .RECOVER) :
    noRecoverSessions (aset l k s) := by
  intro p hp
  rcases mem_aset l k s p hp with h₂ | h₂
  · subst h₂; exact hs
  · exact h p h₂

theorem noRecover_filter (l : Sessions) (q : String × MPCSessionState → Bool)
    (h : noRecoverSessions l) : noRecoverSessions (l.filter q) :=
  fun p hp => h p (List.mem_of_mem_filter hp)

/-- `smGet`'s second component is the map, possibly with the probed
binding lazily erased. -/
theorem smGet_snd (l : Sessions) (sid : String) (now : Nat) :
    (smGet l sid now).2 = l ∨ (smGet l sid now).2 = aerase l sid := by
  unfold smGet
  cases alookup l sid with
  | none => exact Or.inl rfl
  | some s =>
    by_cases he : now > s.expiresAt
    · simp [he]
    · simp [he]

/-- A session returned by `smGet` is the stored binding. -/
theorem smGet_some (l : Sessions) (sid : String) (now : Nat)
    (s : MPCSessionState) (l₂ : Sessions)
    (h : smGet l sid now = (some s, l₂)) :
    alookup l sid = some s ∧ l₂ = l := by
  unfold smGet at h
  cases hl : alookup l sid with
  | none => rw [hl] at h; cases h
  | some t =>
    rw [hl] at h
    by_cases he : now > t.expiresAt
    · simp [he] at h
    · simp [he] at h
      exact ⟨by rw [h.1], h.2.symm⟩

/-- A successful `stepDKG` leaves the session's `protocol` unchanged. -/
theorem stepDKG_ok_protocol (s : MPCSessionState) (m : ClientMsg) (rand : Bytes)
    (r : EngineStep DKGResult) (h : stepDKG s m rand = .ok r) :
    r.sessionState.protocol = s.protocol := by
  rw [stepDKG.eq_def] at h
  split at h
  · exact Except.noConfusion h
  · split at h
    · exact Except.noConfusion h
    · split at h
      · split at h
        · cases h; rfl
        · split at h
          · cases h; rfl
          · split at h
            · cases h; rfl
            · exact Except.noConfusion h
      · exact Except.noConfusion h

/-- A successful `stepSign` leaves the session's `protocol` unchanged. -/
theorem stepSign_ok_protocol (s : MPCSessionState) (m : ClientMsg)
    (r : EngineStep SigningResult) (h : stepSign s m = .ok r) :
    r.sessionState.protocol = s.protocol := by
  rw [stepSign.eq_def] at h
  split at h
  · exact Except.noConfusion h
  · split at h
    · exact Except.noConfusion h
    · split at h
      · split at h
        · cases h; rfl
        · exact Except.noConfusion h
      · exact Except.noConfusion h

/-- One dispatched request preserves the RECOVER-session invariant. -/
theorem processRequest_no_recover (st : EnclaveState) (f : Fresh)
    (req : VsockRequest) (h : noRecoverSessions st.sessions) :
    noRecoverSessions (processRequest st f req).2.1.sessions := by
  have hGetNone : ∀ sid sessions₁,
      smGet st.sessions sid f.now = (none, sessions₁) →
      noRecoverSessions sessions₁ := by
    intro sid sessions₁ hg
    rcases smGet_snd st.sessions sid f.now with h₂ | h₂ <;>
      rw [hg] at h₂ <;> simp at h₂ <;> rw [h₂]
    · exact h
    · exact noRecover_aerase _ _ h
  cases req with
  | mk body rid =>
    cases body with
    | health => simpa [processRequest] using h
    | createAccountStart b =>
      simp only [processRequest, handleCreateAccountStart]
      exact noRecover_aset _ _ _ h (by simp [startDKG])
    | createAccountStep b =>
      simp only [processRequest, handleCreateAccountStep]
      cases hg : smGet st.sessions b.sessionId f.now with
      | mk o sessions₁ =>
        cases o with
        | none => simpa using hGetNone _ _ hg
        | some s =>
          obtain ⟨hl, hsl⟩ := smGet_some _ _ _ _ _ hg
          subst hsl
          by_cases hp : s.protocol ≠ Protocol.DKG
          · simpa [hp] using h
          · simp only [hp, if_false, ite_false, if_neg]
            cases hd : stepDKG s b.clientMessage f.rand with
            | error e => simpa [hp, hd] using h
            | ok r =>
              have hrp : r.sessionState.protocol ≠ Protocol.RECOVER := by
                rw [stepDKG_ok_protocol s b.clientMessage f.rand r hd]
                simp at hp
                rw [hp]
                intro hc
                cases hc
              cases hdone : r.done with
              | false =>
                simp only [hp, hd, hdone]
                simpa using noRecover_aset _ _ _ h hrp
              | true =>
                cases hres : r.result with
                | none =>
                  simp only [hp, hd, hdone, hres]
                  simpa using noRecover_aset _ _ _ h hrp
                | some res =>
                  simp only [hp, hd, hdone, hres]
                  simpa [smDelete, smUpdate] using
                    noRecover_aerase _ _ (noRecover_aset _ _ _ h hrp)
    | getPublicKey b =>
      simp only [processRequest, handleGetPublicKey]
      cases b.accountId with
      | none => simpa using h
      | some accountId =>
        by_cases hs : (alookup st.shards accountId).isSome = false
        · simpa [hs] using h
        · cases hm : alookup st.metadata accountId with
          | none => simpa [hs, hm] using h
          | some md => simpa [hs, hm] using h
    | signStart b =>
      simp only [processRequest, handleSignStart]
      cases b.accountId with
      | none => simpa using h
      | some accountId =>
        cases hsh : alookup st.shards accountId with
        | none => simpa [hsh] using h
        | some shard =>
          cases b.clientMessage with
          | none => simpa [hsh] using h
          | some ci =>
            cases ci with
            | none => simpa [hsh] using h
            | some init =>
              simp only [hsh]
              exact noRecover_aset _ _ _ h (by simp [startSign])
    | signStep b =>
      simp only [processRequest, handleSignStep]
      cases hg : smGet st.sessions b.sessionId f.now with
      | mk o sessions₁ =>
        cases o with
        | none => simpa using hGetNone _ _ hg
        | some s =>
          obtain ⟨hl, hsl⟩ := smGet_some _ _ _ _ _ hg
          subst hsl
          by_cases hp : s.protocol ≠ Protocol.SIGN
          · simpa [hp] using h
          · simp only [hp, if_neg]
            cases hd : stepSign s b.clientMessage with
            | error e => simpa [hp, hd] using h
            | ok r =>
              have hrp : r.sessionState.protocol ≠ Protocol.RECOVER := by
                rw [stepSign_ok_protocol s b.clientMessage r hd]
                simp at hp
                rw [hp]
                intro hc
                cases hc
              cases hdone : r.done with
              | false =>
                simp only [hp, hd, hdone]
                simpa using noRecover_aset _ _ _ h hrp
              | true =>
                cases hres : r.result with
                | none =>
                  simp only [hp, hd, hdone, hres]
                  simpa using noRecover_aset _ _ _ h hrp
                | some res =>
                  cases hacc : s.accountId with
                  | none =>
                    simp only [hp, hd, hdone, hres, hacc]
                    simpa [smDelete, smUpdate] using
                      noRecover_aerase _ _ (noRecover_aset _ _ _ h hrp)
                  | some accountId =>
                    cases hm : alookup st.metadata accountId with
                    | none =>
                      simp only [hp, hd, hdone, hres, hacc]
                      simpa [hm, smDelete, smUpdate] using
                        noRecover_aerase _ _ (noRecover_aset _ _ _ h hrp)
                    | some md =>
                      simp only [hp, hd, hdone, hres, hacc]
                      simpa [hm, smDelete, smUpdate] using
                        noRecover_aerase _ _ (noRecover_aset _ _ _ h hrp)
    | recoverStart b =>
      simp only [processRequest, handleRecoverStart]
      cases b.accountId with
      | none => simpa using h
      | some accountId =>
        cases b.clientMessage with
        | none => simpa using h
        | some clientMessage =>
          cases hsh : alookup st.shards accountId with
          | none => simpa [hsh] using h
          | some shard =>
            cases clientMessage with
            | none => simpa [hsh, startRecover] using h
            | some m => simpa [hsh, startRecover] using h
    | recoverStep b =>
      simp only [processRequest, handleRecoverStep]
      cases hg : smGet st.sessions b.sessionId f.now with
      | mk o sessions₁ =>
        cases o with
        | none => simpa using hGetNone _ _ hg
        | some s =>
          obtain ⟨hl, hsl⟩ := smGet_some _ _ _ _ _ hg
          subst hsl
          by_cases hp : s.protocol ≠ Protocol.RECOVER
          · simpa [hp] using h
          · exact absurd (h _ (alookup_mem _ _ _ hl)) (by simpa using hp)
    | unknownEndpoint e => simpa [processRequest] using h

/-- C10: in every reachable enclave state no stored session has protocol
RECOVER (the mock `startRecover` finishes immediately, so
`handleRecoverStart` never stores a session), and consequently every
`recover/step` request fails with `INVALID_SESSION` — in particular the
`MPC_ERROR` thrown unconditionally by `stepRecover` is unreachable
through the dispatcher. -/
theorem no_recover_sessions_reachable :
    (∀ st : EnclaveState, Reachable st → noRecoverSessions st.sessions) ∧
    (∀ (st : EnclaveState) (f : Fresh) (b : RecoverStepBody) (rid : Option String),
       Reachable st →
       (processRequest st f ⟨.recoverStep b, rid⟩).1.success = false ∧
       errCodeOf (processRequest st f ⟨.recoverStep b, rid⟩).1 =
         some .INVALID_SESSION) := by
  have inv : ∀ st : EnclaveState, Reachable st → noRecoverSessions st.sessions := by
    intro st hr
    induction hr with
    | init => exact noRecoverSessions_nil
    | step st f req hr ih => exact processRequest_no_recover st f req ih
    | sweep st now hr ih => exact noRecover_filter _ _ ih
  refine ⟨inv, ?_⟩
  intro st f b rid hr
  have hinv := inv st hr
  simp only [processRequest, handleRecoverStep]
  cases hg : smGet st.sessions b.sessionId f.now with
  | mk o sessions₁ =>
    cases o with
    | none => simp [errCodeOf, classify_session_notfound]
    | some s =>
      obtain ⟨hl, hsl⟩ := smGet_some _ _ _ _ _ hg
      have hp : s.protocol ≠ Protocol.RECOVER := hinv _ (alookup_mem _ _ _ hl)
      simp [hp, errCodeOf, classify_not_recover]

/-- Witness for C10 at the initial state. -/
theorem no_recover_sessions_reachable_witness :
    (processRequest { sessions := [], shards := [], metadata := [] }
        ⟨0, "s", "a", [0], [0]⟩
        ⟨.recoverStep ⟨none, "sess-z", some ⟨1, "m", [0]⟩⟩, none⟩).1.success = false ∧
    errCodeOf (processRequest { sessions := [], shards := [], metadata := [] }
        ⟨0, "s", "a", [0], [0]⟩
        ⟨.recoverStep ⟨none, "sess-z", some ⟨1, "m", [0]⟩⟩, none⟩).1 =
      some .INVALID_SESSION :=
  no_recover_sessions_reachable.2 { sessions := [], shards := [], metadata := [] }
    ⟨0, "s", "a", [0], [0]⟩ ⟨none, "sess-z", some ⟨1, "m", [0]⟩⟩ none Reachable.init

/-! ## Transport framing lemmas (C7 infrastructure) -/

/-- Accounting for the listener under a never-succeeding parse: every
event that finds the buffer at or past the limit appends exactly one
parse-error response, and `socket.end()` gets scheduled iff at least one
such event occurred. -/
theorem runConn_writes_count (parse : String → Option VsockRequest)
    (dispatch : VsockRequest → VsockResponse)
    (hfail : ∀ s, parse s = none) :
    ∀ (chunks : List String) (acc : ConnResult),
      (runConn parse dispatch chunks acc).writes =
        acc.writes ++
          List.replicate (overflowEvents acc.buffer.length chunks) parseErrorResponse ∧
      (runConn parse dispatch chunks acc).endRequested =
        (acc.endRequested || decide (0 < overflowEvents acc.buffer.length chunks)) := by
  intro chunks
  induction chunks with
  | nil =>
    intro acc
    simp [runConn, overflowEvents]
  | cons c rest ih =>
    intro acc
    have hlen : (acc.buffer ++ c).length = acc.buffer.length + c.length :=
      String.length_append _ _
    rw [runConn]
    simp only [onData, hfail]
    by_cases hb : (acc.buffer ++ c).length < 100000
    · have hb2 : acc.buffer.length + c.length < 100000 := by omega
      simp only [hb, ite_true, if_pos]
      obtain ⟨hw, he⟩ := ih ⟨acc.buffer ++ c, acc.writes, acc.endRequested⟩
      refine ⟨?_, ?_⟩
      · rw [hw]
        simp [overflowEvents, hlen, hb2]
      · rw [he]
        simp [overflowEvents, hlen, hb2]
    · have hb2 : ¬ acc.buffer.length + c.length < 100000 := by omega
      simp only [hb, ite_false]
      obtain ⟨hw, he⟩ := ih ⟨acc.buffer ++ c, acc.writes ++ [parseErrorResponse], true⟩
      refine ⟨?_, ?_⟩
      · rw [hw]
        simp [overflowEvents, hlen, hb2, List.replicate_add, List.append_assoc]
      · rw [he]
        have hpos : 0 < 1 + overflowEvents (acc.buffer.length + c.length) rest := by
          omega
        simp [overflowEvents, hlen, hb2, hpos]

/-- No event overflows while the accumulated data stays below the
limit. -/
theorem overflowEvents_eq_zero (chunks : List String) :
    ∀ bufLen : Nat, bufLen + (chunks.map String.length).sum < 100000 →
      overflowEvents bufLen chunks = 0 := by
  induction chunks with
  | nil => intro bufLen _; rfl
  | cons c rest ih =>
    intro bufLen h
    simp only [List.map_cons, List.sum_cons] at h
    have h1 : bufLen + c.length < 100000 := by omega
    simp [overflowEvents, h1, ih (bufLen + c.length) (by omega)]

/-- Splitting the event list splits the overflow count. -/
theorem overflowEvents_append (xs ys : List String) :
    ∀ bufLen : Nat,
      overflowEvents bufLen (xs ++ ys) =
        overflowEvents bufLen xs +
          overflowEvents (bufLen + (xs.map String.length).sum) ys := by
  induction xs with
  | nil => intro bufLen; simp [overflowEvents]
  | cons c rest ih =>
    intro bufLen
    simp only [List.cons_append, overflowEvents, List.map_cons, List.sum_cons,
      List.append_eq]
    rw [ih (bufLen + c.length)]
    have hassoc : bufLen + c.length + (rest.map String.length).sum =
        bufLen + (c.length + (rest.map String.length).sum) := by omega
    rw [hassoc]
    omega

theorem overflowEvents_nil (bufLen : Nat) : overflowEvents bufLen [] = 0 := rfl

theorem overflowEvents_cons (bufLen : Nat) (c : String) (rest : List String) :
    overflowEvents bufLen (c :: rest) =
      (if bufLen + c.length < 100000 then 0 else 1)
        + overflowEvents (bufLen + c.length) rest := rfl

/-- A parse that always fails (a buffer that never becomes valid JSON). -/
def neverParse : String → Option VsockRequest := fun _ => none

/-- A fixed dispatcher stand-in for witnesses. -/
def constDispatch : VsockRequest → VsockResponse := fun _ => parseErrorResponse

/-- A 100 000-character chunk. -/
def bigChunk : String := String.mk (List.replicate 100000 'a')

theorem bigChunk_length : bigChunk.length = 100000 := by
  show (List.replicate 100000 'a').length = 100000
  exact List.length_replicate 100000 'a'

/-- C7 (counterexample): the `data` listener is never detached and
`socket.end()` is only scheduled, so a 100 000-character unparseable
chunk followed by one more byte draws TWO `INVALID_REQUEST` responses
from the connection — not exactly one, as the claim states. -/
theorem transport_single_error_counterexample :
    (runConnection neverParse constDispatch [bigChunk, "x"]).writes =
      [parseErrorResponse, parseErrorResponse] ∧
    ¬ (runConnection neverParse constDispatch [bigChunk, "x"]).writes =
      [parseErrorResponse] := by
  have h := (runConn_writes_count neverParse constDispatch (fun _ => rfl)
      [bigChunk, "x"] { buffer := "", writes := [], endRequested := false }).1
  have hov : overflowEvents (("" : String).length) [bigChunk, "x"] = 2 := by
    rw [overflowEvents_cons, overflowEvents_cons, bigChunk_length, overflowEvents_nil]
    decide
  rw [runConnection]
  rw [h]
  rw [show ({ buffer := "", writes := [], endRequested := false } :
        ConnResult).buffer.length = ("" : String).length from rfl]
  rw [hov]
  simp

/-- C7 (amended): while the accumulated data of a never-parsing
connection stays below the 100 000 limit, no response is written and no
close is scheduled; the listener stays attached, so each `data` event
that finds the buffer at or past the limit without a successful parse
writes exactly one `INVALID_REQUEST` response and schedules the
connection close — the responses written are exactly one per over-limit
event.  In particular exactly one `INVALID_REQUEST` is written precisely
in the runs that deliver no further data after the first over-limit
event. -/
theorem transport_per_event_error_accounting :
    (∀ (parse : String → Option VsockRequest)
       (dispatch : VsockRequest → VsockResponse) (chunks : List String),
       (∀ s, parse s = none) →
       (chunks.map String.length).sum < 100000 →
       (runConnection parse dispatch chunks).writes = [] ∧
       (runConnection parse dispatch chunks).endRequested = false) ∧
    (∀ (parse : String → Option VsockRequest)
       (dispatch : VsockRequest → VsockResponse) (chunks : List String),
       (∀ s, parse s = none) →
       (runConnection parse dispatch chunks).writes =
         List.replicate (overflowEvents 0 chunks) parseErrorResponse ∧
       (runConnection parse dispatch chunks).endRequested =
         decide (0 < overflowEvents 0 chunks)) ∧
    (∀ (parse : String → Option VsockRequest)
       (dispatch : VsockRequest → VsockResponse) (chunks : List String) (c : String),
       (∀ s, parse s = none) →
       (chunks.map String.length).sum < 100000 →
       ¬ (chunks.map String.length).sum + c.length < 100000 →
       (runConnection parse dispatch (chunks ++ [c])).writes = [parseErrorResponse] ∧
       (runConnection parse dispatch (chunks ++ [c])).endRequested = true) := by
  have main : ∀ (parse : String → Option VsockRequest)
      (dispatch : VsockRequest → VsockResponse) (chunks : List String),
      (∀ s, parse s = none) →
      (runConnection parse dispatch chunks).writes =
        List.replicate (overflowEvents 0 chunks) parseErrorResponse ∧
      (runConnection parse dispatch chunks).endRequested =
        decide (0 < overflowEvents 0 chunks) := by
    intro parse dispatch chunks hfail
    have h := runConn_writes_count parse dispatch hfail chunks
      { buffer := "", writes := [], endRequested := false }
    simpa [runConnection, show ("" : String).length = 0 from rfl] using h
  refine ⟨?_, main, ?_⟩
  · intro parse dispatch chunks hfail hlen
    have h := main parse dispatch chunks hfail
    have hz : overflowEvents 0 chunks = 0 :=
      overflowEvents_eq_zero chunks 0 (by omega)
    rw [hz] at h
    simpa using h
  · intro parse dispatch chunks c hfail hlt hge
    have h := main parse dispatch (chunks ++ [c]) hfail
    have hz : overflowEvents 0 chunks = 0 :=
      overflowEvents_eq_zero chunks 0 (by omega)
    have happ : overflowEvents 0 (chunks ++ [c]) = 1 := by
      rw [overflowEvents_append chunks [c] 0, hz]
      have hone : 100000 ≤ (chunks.map String.length).sum + c.length := by omega
      simp [overflowEvents, hone]
    rw [happ] at h
    simpa using h

/-- Witness for C7's amended theorem: below-limit data waits; a run that
ends at its first over-limit event draws exactly one response and a
scheduled close. -/
theorem transport_per_event_error_accounting_witness :
    ((runConnection neverParse constDispatch ["ab"]).writes = [] ∧
     (runConnection neverParse constDispatch ["ab"]).endRequested = false) ∧
    ((runConnection neverParse constDispatch (["ab"] ++ [bigChunk])).writes =
        [parseErrorResponse] ∧
     (runConnection neverParse constDispatch (["ab"] ++ [bigChunk])).endRequested =
        true) :=
  ⟨transport_per_event_error_accounting.1 neverParse constDispatch ["ab"]
     (fun _ => rfl) (by decide),
   transport_per_event_error_accounting.2.2 neverParse constDispatch ["ab"] bigChunk
     (fun _ => rfl) (by decide)
     (by rw [bigChunk_length]; decide)⟩

/-! ## C9 infrastructure: the non-terminal DKG steps -/

/-- The session record a DKG flow holds after `startDKG` and between
steps: round-`cur` internal state over the same key material. -/
def dkgSession (sid : String) (fpk : Bytes) (now : Nat) (cur : Nat)
    (cc cs : Option Bytes) : MPCSessionState :=
  { sessionId := sid,
    protocol := .DKG,
    round := 1,
    accountId := none,
    internalState := .dkg fpk cur 3 cc cs,
    createdAt := now,
    expiresAt := now + 300000 }

/-- Helper: full characterisation of a round-1 `createAccount/step`. -/
theorem handleCreateAccountStep_round1 (st : EnclaveState) (f : Fresh)
    (body : CreateStepBody) (s : MPCSessionState) (fpk : Bytes)
    (mx : Nat) (cc cs : Option Bytes) (m : ProtoMsg)
    (h₁ : alookup st.sessions body.sessionId = some s)
    (h₂ : ¬ f.now > s.expiresAt)
    (h₃ : s.protocol = .DKG)
    (h₄ : s.internalState = .dkg fpk 1 mx cc cs)
    (h₅ : body.clientMessage = some m) :
    handleCreateAccountStep st f body =
      (.ok (.accountStepContinue body.requestId body.sessionId
          (some ⟨2, "dkg_share_commitment", f.rand⟩)),
       { st with sessions :=
           smUpdate st.sessions { s with internalState := .dkg fpk 2 mx (some m.data) cs } },
       [.sessionUpdate { s with internalState := .dkg fpk 2 mx (some m.data) cs }]) := by
  simp [handleCreateAccountStep, smGet, stepDKG, h₁, h₂, h₃, h₄, h₅]

/-- Helper: full characterisation of a round-2 `createAccount/step`. -/
theorem handleCreateAccountStep_round2 (st : EnclaveState) (f : Fresh)
    (body : CreateStepBody) (s : MPCSessionState) (fpk : Bytes)
    (mx : Nat) (cc cs : Option Bytes) (m : ProtoMsg)
    (h₁ : alookup st.sessions body.sessionId = some s)
    (h₂ : ¬ f.now > s.expiresAt)
    (h₃ : s.protocol = .DKG)
    (h₄ : s.internalState = .dkg fpk 2 mx cc cs)
    (h₅ : body.clientMessage = some m) :
    handleCreateAccountStep st f body =
      (.ok (.accountStepContinue body.requestId body.sessionId
          (some ⟨3, "dkg_verification", f.rand⟩)),
       { st with sessions :=
           smUpdate st.sessions { s with internalState := .dkg fpk 3 mx cc (some m.data) } },
       [.sessionUpdate { s with internalState := .dkg fpk 3 mx cc (some m.data) }]) := by
  simp [handleCreateAccountStep, smGet, stepDKG, h₁, h₂, h₃, h₄, h₅]

/-- C9: a DKG flow driven to completion (start, then three steps with
decodable client messages inside the session's five-minute window)
answers `DONE` with an address that is the deterministic address function
of the flow's combined public key, and a subsequent `getPublicKey` for
the returned accountId reports exactly that address and public key. -/
theorem dkg_address_deterministic_and_getPublicKey_consistent
    (st : EnclaveState) (f₀ f₁ f₂ f₃ : Fresh) (b₀ : StartBody)
    (m₁ m₂ m₃ : ProtoMsg) (rid₁ rid₂ rid₃ rid₄ : Option String)
    (lbl₁ lbl₂ lbl₃ : Option String)
    (h₁ : ¬ f₁.now > f₀.now + 300000)
    (h₂ : ¬ f₂.now > f₀.now + 300000)
    (h₃ : ¬ f₃.now > f₀.now + 300000) :
    (handleCreateAccountStep
        (handleCreateAccountStep
            (handleCreateAccountStep
                (handleCreateAccountStart st f₀ b₀).2.1
                f₁ ⟨rid₁, f₀.sessionId, some m₁, lbl₁⟩).2.1
            f₂ ⟨rid₂, f₀.sessionId, some m₂, lbl₂⟩).2.1
        f₃ ⟨rid₃, f₀.sessionId, some m₃, lbl₃⟩).1 =
      .ok (.accountStepDone rid₃ f₀.sessionId f₃.accountId
        (addressOfPub (pubKeyOfPriv f₀.privKey))) ∧
    (handleGetPublicKey
        (handleCreateAccountStep
            (handleCreateAccountStep
                (handleCreateAccountStep
                    (handleCreateAccountStart st f₀ b₀).2.1
                    f₁ ⟨rid₁, f₀.sessionId, some m₁, lbl₁⟩).2.1
                f₂ ⟨rid₂, f₀.sessionId, some m₂, lbl₂⟩).2.1
            f₃ ⟨rid₃, f₀.sessionId, some m₃, lbl₃⟩).2.1
        ⟨rid₄, some f₃.accountId⟩).1 =
      .ok (.publicKey rid₄ f₃.accountId (addressOfPub (pubKeyOfPriv f₀.privKey))
        (bytesToHex (pubKeyOfPriv f₀.privKey))) := by
  have hX₀ : (handleCreateAccountStart st f₀ b₀).2.1 =
      ({ sessions :=
           smUpdate st.sessions (dkgSession f₀.sessionId f₀.privKey f₀.now 1 none none),
         shards := st.shards, metadata := st.metadata } : EnclaveState) := rfl
  have e₁ := handleCreateAccountStep_round1
    ({ sessions :=
         smUpdate st.sessions (dkgSession f₀.sessionId f₀.privKey f₀.now 1 none none),
       shards := st.shards, metadata := st.metadata } : EnclaveState)
    f₁ ⟨rid₁, f₀.sessionId, some m₁, lbl₁⟩
    (dkgSession f₀.sessionId f₀.privKey f₀.now 1 none none)
    f₀.privKey 3 none none m₁
    (alookup_aset_self _ _ _) h₁ rfl rfl rfl
  have hX₁ : (handleCreateAccountStep
      (handleCreateAccountStart st f₀ b₀).2.1
      f₁ ⟨rid₁, f₀.sessionId, some m₁, lbl₁⟩).2.1 =
      ({ sessions :=
           smUpdate
             (smUpdate st.sessions (dkgSession f₀.sessionId f₀.privKey f₀.now 1 none none))
             (dkgSession f₀.sessionId f₀.privKey f₀.now 2 (some m₁.data) none),
         shards := st.shards, metadata := st.metadata } : EnclaveState) := by
    rw [hX₀, e₁]
    rfl
  have e₂ := handleCreateAccountStep_round2
    ({ sessions :=
         smUpdate
           (smUpdate st.sessions (dkgSession f₀.sessionId f₀.privKey f₀.now 1 none none))
           (dkgSession f₀.sessionId f₀.privKey f₀.now 2 (some m₁.data) none),
       shards := st.shards, metadata := st.metadata } : EnclaveState)
    f₂ ⟨rid₂, f₀.sessionId, some m₂, lbl₂⟩
    (dkgSession f₀.sessionId f₀.privKey f₀.now 2 (some m₁.data) none)
    f₀.privKey 3 (some m₁.data) none m₂
    (alookup_aset_self _ _ _) h₂ rfl rfl rfl
  have hX₂ : (handleCreateAccountStep
      (handleCreateAccountStep
          (handleCreateAccountStart st f₀ b₀).2.1
          f₁ ⟨rid₁, f₀.sessionId, some m₁, lbl₁⟩).2.1
      f₂ ⟨rid₂, f₀.sessionId, some m₂, lbl₂⟩).2.1 =
      ({ sessions :=
           smUpdate
             (smUpdate
               (smUpdate st.sessions (dkgSession f₀.sessionId f₀.privKey f₀.now 1 none none))
               (dkgSession f₀.sessionId f₀.privKey f₀.now 2 (some m₁.data) none))
             (dkgSession f₀.sessionId f₀.privKey f₀.now 3 (some m₁.data) (some m₂.data)),
         shards := st.shards, metadata := st.metadata } : EnclaveState) := by
    rw [hX₁, e₂]
    rfl
  have e₃ := handleCreateAccountStep_terminal
    ({ sessions :=
         smUpdate
           (smUpdate
             (smUpdate st.sessions (dkgSession f₀.sessionId f₀.privKey f₀.now 1 none none))
             (dkgSession f₀.sessionId f₀.privKey f₀.now 2 (some m₁.data) none))
           (dkgSession f₀.sessionId f₀.privKey f₀.now 3 (some m₁.data) (some m₂.data)),
       shards := st.shards, metadata := st.metadata } : EnclaveState)
    f₃ ⟨rid₃, f₀.sessionId, some m₃, lbl₃⟩
    (dkgSession f₀.sessionId f₀.privKey f₀.now 3 (some m₁.data) (some m₂.data))
    f₀.privKey 3 (some m₁.data) (some m₂.data) m₃
    (alookup_aset_self _ _ _) h₃ rfl rfl rfl
  constructor
  · rw [hX₂, e₃]
    rfl
  · rw [hX₂, e₃]
    simp [handleGetPublicKey, alookup_aset_self, walletAddress, smUpdate, smDelete]

/-- Witness for C9: a concrete full DKG flow from the empty state. -/
theorem dkg_address_deterministic_and_getPublicKey_consistent_witness :
    (handleCreateAccountStep
        (handleCreateAccountStep
            (handleCreateAccountStep
                (handleCreateAccountStart { sessions := [], shards := [], metadata := [] }
                    ⟨0, "sess-a", "acct-a", [1], [2]⟩ ⟨none, none, none⟩).2.1
                ⟨5, "sess-b", "acct-b", [3], [4]⟩
                ⟨none, "sess-a", some ⟨1, "m", [7]⟩, none⟩).2.1
            ⟨6, "sess-c", "acct-c", [5], [6]⟩
            ⟨none, "sess-a", some ⟨2, "m", [8]⟩, none⟩).2.1
        ⟨7, "sess-d", "acct-d", [9], [10]⟩
        ⟨none, "sess-a", some ⟨3, "m", [11]⟩, none⟩).1 =
      .ok (.accountStepDone none "sess-a" "acct-d" (addressOfPub (pubKeyOfPriv [1]))) ∧
    (handleGetPublicKey
        (handleCreateAccountStep
            (handleCreateAccountStep
                (handleCreateAccountStep
                    (handleCreateAccountStart { sessions := [], shards := [], metadata := [] }
                        ⟨0, "sess-a", "acct-a", [1], [2]⟩ ⟨none, none, none⟩).2.1
                    ⟨5, "sess-b", "acct-b", [3], [4]⟩
                    ⟨none, "sess-a", some ⟨1, "m", [7]⟩, none⟩).2.1
                ⟨6, "sess-c", "acct-c", [5], [6]⟩
                ⟨none, "sess-a", some ⟨2, "m", [8]⟩, none⟩).2.1
            ⟨7, "sess-d", "acct-d", [9], [10]⟩
            ⟨none, "sess-a", some ⟨3, "m", [11]⟩, none⟩).2.1
        ⟨none, some "acct-d"⟩).1 =
      .ok (.publicKey none "acct-d" (addressOfPub (pubKeyOfPriv [1]))
        (bytesToHex (pubKeyOfPriv [1]))) :=
  dkg_address_deterministic_and_getPublicKey_consistent
    { sessions := [], shards := [], metadata := [] }
    ⟨0, "sess-a", "acct-a", [1], [2]⟩ ⟨5, "sess-b", "acct-b", [3], [4]⟩
    ⟨6, "sess-c", "acct-c", [5], [6]⟩ ⟨7, "sess-d", "acct-d", [9], [10]⟩
    ⟨none, none, none⟩ ⟨1, "m", [7]⟩ ⟨2, "m", [8]⟩ ⟨3, "m", [11]⟩
    none none none none none none none
    (by decide) (by decide) (by decide)

end MPCEnclave
